import Mathlib

/-!
Verification development for the `datadoodler` SVG renderer (`renderer.py`).

The renderer consumes an untrusted, loosely typed "visual specification"
document and produces an SVG image.  We shallowly embed the renderer over a
model of Python values (`PyVal`): dictionaries are association lists, numbers
are rationals, fallible operations (attribute access on non-dicts, `int(...)`
coercion, indexing, iteration) return `Except Err`.  Randomness
(`random.uniform`, `random.random`, `random.randint`) is modelled by an
oracle stream `g : Nat → ℚ` of draws in `[0, 1]`, consumed in program order
through an explicit counter, with `uniform(lo, hi) = lo + u * (hi - lo)`.
The SVG output is modelled as a list of `Svg` nodes, one per string appended
to `svg_parts` in the source, carrying the numeric and textual attributes
the source interpolates into each tag.
-/

namespace VSpec

/-- Python exception classes that the renderer can raise. -/
inductive Err where
  | attributeError
  | typeError
  | valueError
  | indexError
  | keyError
deriving DecidableEq

/-- Model of the Python values a JSON-derived spec can contain.
Python ints, floats and bools-as-numbers are collapsed into `num : ℚ`;
tuples are collapsed into `list` (the source only distinguishes them via
`isinstance(p, (list, tuple))`, which accepts both). -/
inductive PyVal where
  | none
  | bool (b : Bool)
  | num (q : ℚ)
  | str (s : String)
  | list (xs : List PyVal)
  | dict (kvs : List (String × PyVal))

/-- Python truthiness: `None`, `False`, `0`, `""`, `[]` and `\x7b\x7d` are falsy. -/
def pyTruthy : PyVal → Bool
  | PyVal.none => false
  | PyVal.bool b => b
  | PyVal.num q => !(q == 0)
  | PyVal.str s => !s.isEmpty
  | PyVal.list xs => !xs.isEmpty
  | PyVal.dict kvs => !kvs.isEmpty

/-- Association-list lookup used to model dictionary access. -/
def lookupKV (kvs : List (String × PyVal)) (key : String) : Option PyVal :=
  match kvs with
  | [] => Option.none
  | (k, v) :: rest => if k = key then Option.some v else lookupKV rest key

/-- Total model of `d.get(key, default)` for a receiver already known to be a
dict; on a non-dict receiver it returns the default (all call sites in the
model establish the receiver is a dict before using it). -/
def dGetD (v : PyVal) (key : String) (dflt : PyVal) : PyVal :=
  match v with
  | PyVal.dict kvs => (lookupKV kvs key).getD dflt
  | _ => dflt

/-- Total model of `d.get(key)` (default `None`) for dict receivers. -/
def dGet (v : PyVal) (key : String) : PyVal :=
  dGetD v key PyVal.none

/-- Model of `key in d` for dict receivers. -/
def dHasKey (v : PyVal) (key : String) : Bool :=
  match v with
  | PyVal.dict kvs => kvs.any (fun p => p.1 = key)
  | _ => false

/-- Fallible model of `v.get(key, default)`: raises `AttributeError` when the
receiver is not a dict (e.g. `(5).get(...)` in Python). -/
def pyGetD (v : PyVal) (key : String) (dflt : PyVal) : Except Err PyVal :=
  match v with
  | PyVal.dict kvs => Except.ok ((lookupKV kvs key).getD dflt)
  | _ => Except.error Err.attributeError

/-- Fallible model of single-argument `v.get(key)`. -/
def pyGet (v : PyVal) (key : String) : Except Err PyVal :=
  pyGetD v key PyVal.none

/-- Explicit bind on `Except Err`, used to keep the control flow of the
translated Python fully transparent to the proofs. -/
def eb {α β : Type} (x : Except Err α) (f : α → Except Err β) : Except Err β :=
  match x with
  | Except.ok a => f a
  | Except.error e => Except.error e

@[simp] theorem eb_ok {α β : Type} (a : α) (f : α → Except Err β) :
    eb (Except.ok a) f = f a := rfl

@[simp] theorem eb_err {α β : Type} (e : Err) (f : α → Except Err β) :
    eb (Except.error e) f = Except.error e := rfl

/-- All-digits test for the decimal-literal subset of Python `float`/`int`
string parsing that the model covers. -/
def allDigits (l : List Char) : Bool :=
  l.all (fun c => c.isDigit)

/-- Value of a digit string. -/
def digVal (l : List Char) : Nat :=
  l.foldl (fun a c => a * 10 + (c.toNat - 48)) 0

/-- Split a character list at the first dot: returns the part before it and,
when a dot exists, the part after it. -/
def splitDot : List Char → List Char × Option (List Char)
  | [] => ([], Option.none)
  | c :: t =>
    if c = '.' then ([], Option.some t)
    else
      let p := splitDot t
      (c :: p.1, p.2)

/-- Unsigned decimal-literal parser: digits, optional single dot, at least one
digit overall (`"1"`, `"1.5"`, `".5"`, `"5."`).  Strings outside this subset
(exponents, whitespace, `"nan"`, `"inf"`) are treated as unparseable, which
for `_get_num` call sites means the documented default is used. -/
def strToFloatAux (l : List Char) : Option ℚ :=
  match splitDot l with
  | (ip, Option.none) =>
    if ip ≠ [] ∧ allDigits ip then Option.some ((digVal ip : ℚ)) else Option.none
  | (ip, Option.some fp) =>
    if allDigits ip ∧ allDigits fp ∧ (ip ≠ [] ∨ fp ≠ []) then
      Option.some ((digVal ip : ℚ) + (digVal fp : ℚ) / ((10 : ℚ) ^ fp.length))
    else Option.none

/-- Model of Python `float(s)` on the decimal-literal subset, with sign. -/
def strToFloat (s : String) : Option ℚ :=
  match s.data with
  | '-' :: t => (strToFloatAux t).map (fun q => -q)
  | '+' :: t => strToFloatAux t
  | l => strToFloatAux l

/-- Model of Python `int(s)`: optional sign followed by digits only
(`int("3.5")` raises in Python, hence no dot here). -/
def strToInt (s : String) : Option ℤ :=
  match s.data with
  | '-' :: t => if t ≠ [] ∧ allDigits t then Option.some (-(digVal t : ℤ)) else Option.none
  | '+' :: t => if t ≠ [] ∧ allDigits t then Option.some ((digVal t : ℤ)) else Option.none
  | l => if l ≠ [] ∧ allDigits l then Option.some ((digVal l : ℤ)) else Option.none

/-- Model of Python `float(v)` as a partial function: numbers pass through,
booleans become 0/1, parseable strings are parsed, everything else raises
(which `_get_num` catches). -/
def pyFloat : PyVal → Option ℚ
  | PyVal.num q => Option.some q
  | PyVal.bool b => Option.some (if b then 1 else 0)
  | PyVal.str s => strToFloat s
  | _ => Option.none

/-- `_get_num(value, default)` from renderer.py: safe float coercion with a
default on failure. -/
def getNum (v : PyVal) (dflt : ℚ) : ℚ :=
  (pyFloat v).getD dflt

/-- Truncation toward zero of a rational, as Python `int(float)` does. -/
def ratTrunc (q : ℚ) : ℤ :=
  q.num.tdiv q.den

/-- Model of Python `int(v)` for the canvas width/height coercion: floats are
truncated toward zero, integer-literal strings parsed, `None`/lists/dicts
raise `TypeError`, non-numeric strings raise `ValueError`. -/
def pyInt : PyVal → Except Err ℤ
  | PyVal.num q => Except.ok (ratTrunc q)
  | PyVal.bool b => Except.ok (if b then 1 else 0)
  | PyVal.str s =>
    match strToInt s with
    | Option.some n => Except.ok n
    | Option.none => Except.error Err.valueError
  | _ => Except.error Err.typeError

/-- ASCII lowercase of a string, modelling `str.lower()` on the identifiers
the renderer compares against. -/
def strLower (s : String) : String :=
  String.mk (s.data.map Char.toLower)

/-- Model of `(v or "")` used as a string receiver (e.g. inside `_escape` and
before `.lower()`): falsy values become `""`, strings pass through, truthy
non-strings raise `AttributeError` at the subsequent method call. -/
def pyStrOr : PyVal → Except Err String
  | PyVal.str s => Except.ok s
  | v => if pyTruthy v then Except.error Err.attributeError else Except.ok ""

/-- Total companion of `pyStrOr` for stating well-formedness conditions. -/
def pyStrOrTot : PyVal → String
  | PyVal.str s => s
  | _ => ""

/-- Model of Python indexing `v[i]` for the `area_center[0]` / `area_center[1]`
accesses. -/
def pyIndex (v : PyVal) (i : Nat) : Except Err PyVal :=
  match v with
  | PyVal.list l =>
    match l.get? i with
    | Option.some x => Except.ok x
    | Option.none => Except.error Err.indexError
  | PyVal.str s =>
    match s.data.get? i with
    | Option.some c => Except.ok (PyVal.str (String.mk [c]))
    | Option.none => Except.error Err.indexError
  | PyVal.dict _ => Except.error Err.keyError
  | _ => Except.error Err.typeError

/-- Model of Python iteration `for x in v`: lists yield their elements,
strings their characters, dicts their keys; numbers/booleans/None raise
`TypeError`. -/
def pyIter : PyVal → Except Err (List PyVal)
  | PyVal.list l => Except.ok l
  | PyVal.str s => Except.ok (s.data.map (fun c => PyVal.str (String.mk [c])))
  | PyVal.dict kvs => Except.ok (kvs.map (fun p => PyVal.str p.1))
  | _ => Except.error Err.typeError

/-- Equality of a Python value against a string literal, as used by
`fill != "none"` and `"title" in some_list`: only equal strings compare
equal. -/
def pyEqStr (v : PyVal) (s : String) : Bool :=
  match v with
  | PyVal.str t => t = s
  | _ => false

/-- String rendering of a Python value as interpolated into an f-string.
Faithful for strings; for other values the exact Python `str()` spelling is
immaterial to every claim, so simple stand-ins are used. -/
def pyStr : PyVal → String
  | PyVal.none => "None"
  | PyVal.bool b => if b then "True" else "False"
  | PyVal.num q => toString q.num ++ "/" ++ toString q.den
  | PyVal.str s => s
  | PyVal.list _ => "[list]"
  | PyVal.dict _ => "[dict]"

/-- List-prefix test used to model the substring operator. -/
def startsWithL : List Char → List Char → Bool
  | [], _ => true
  | _ :: _, [] => false
  | a :: as, b :: bs => a = b && startsWithL as bs

/-- Substring test on character lists, modelling Python `sub in s`. -/
def hasSubL (pat : List Char) : List Char → Bool
  | [] => startsWithL pat []
  | c :: t => startsWithL pat (c :: t) || hasSubL pat t

/-- Model of `"title" in (el.get("style") or "")`: falsy style → substring
test on `""`; strings → substring test; lists → membership; dicts → key
membership; truthy numbers/booleans raise `TypeError`. -/
def pyInTitle (v : PyVal) : Except Err Bool :=
  if pyTruthy v then
    match v with
    | PyVal.str s => Except.ok (hasSubL "title".data s.data)
    | PyVal.list l => Except.ok (l.any (fun x => pyEqStr x "title"))
    | PyVal.dict kvs => Except.ok (kvs.any (fun p => p.1 = "title"))
    | _ => Except.error Err.typeError
  else Except.ok false

end VSpec

namespace VSpec

/-- Bottom band reserved for the legend (renderer.py line 7). -/
def LEGEND_RESERVED_HEIGHT : ℚ := 140

/-- Minimum y for the main drawing (renderer.py line 8). -/
def CONTENT_TOP_MARGIN : ℚ := 90

/-- `random.uniform(lo, hi)` given a draw `u ∈ [0, 1]` from the oracle. -/
def unif (u lo hi : ℚ) : ℚ :=
  lo + u * (hi - lo)

/-- `_jitter(value, amount)`: value plus `uniform(-amount, amount)`. -/
def jitter (u v a : ℚ) : ℚ :=
  v + unif u (-a) a

/-- `random.randint(a, b)` given a draw `u ∈ [0, 1]`: an integer in `[a, b]`. -/
def pyRandint (u : ℚ) (a b : ℤ) : ℤ :=
  a + min (ratTrunc (u * ((b : ℚ) - (a : ℚ) + 1))) (b - a)

/-- `_clamp_y(y, height)`: keep y between `CONTENT_TOP_MARGIN` and
`height - LEGEND_RESERVED_HEIGHT - 20`. -/
def clampY (y height : ℚ) : ℚ :=
  let contentBottom := height - LEGEND_RESERVED_HEIGHT - 20
  if y < CONTENT_TOP_MARGIN then CONTENT_TOP_MARGIN
  else if y > contentBottom then contentBottom
  else y

/-- A wobbly quadratic path `M x1,y1 Q cx,cy x2,y2` as emitted by
`_wobble_path`, keeping the numeric fields. -/
structure WPath where
  x1 : ℚ
  y1 : ℚ
  cx : ℚ
  cy : ℚ
  x2 : ℚ
  y2 : ℚ

/-- `_wobble_path(x1, y1, x2, y2, wobble_strength)`: control point is the
midpoint offset by `uniform(-ws, ws)` on each axis (draws `u1`, `u2`). -/
def wobblePath (u1 u2 x1 y1 x2 y2 ws : ℚ) : WPath :=
  ⟨x1, y1, (x1 + x2) / 2 + unif u1 (-ws) ws, (y1 + y2) / 2 + unif u2 (-ws) ws, x2, y2⟩

/-- Replace every occurrence of the single character `c` by the character
list `r`; each `str.replace` call in `_escape` has a one-character pattern,
for which `replace` is exactly this character-wise expansion. -/
def replaceChar (c : Char) (r : List Char) : List Char → List Char
  | [] => []
  | d :: t => (if d = c then r else [d]) ++ replaceChar c r t

/-- The apostrophe character, kept out of literals. -/
def aposChar : Char := Char.ofNat 39

/-- `_escape(text)` body on an actual string: the five sequential `replace`
passes, in source order (`&` first, then `<`, `>`, `"`, apostrophe). -/
def escape (s : String) : String :=
  String.mk
    (replaceChar aposChar ("&apos;".data)
      (replaceChar '"' ("&quot;".data)
        (replaceChar '>' ("&gt;".data)
          (replaceChar '<' ("&lt;".data)
            (replaceChar '&' ("&amp;".data) s.data)))))

/-- `_escape(v)` on a Python value, including the `(text or "")` guard:
falsy values escape to `""`, truthy non-strings raise `AttributeError`. -/
def pyEscape (v : PyVal) : Except Err String :=
  eb (pyStrOr v) (fun s => Except.ok (escape s))

/-- Running bounding box `(min_x, min_y, max_x, max_y)`, each `None` until
the first positionable element is seen. -/
abbrev Bbox := Option ℚ × Option ℚ × Option ℚ × Option ℚ

/-- Minimum of a nonempty list given as head and tail. -/
def listMin (a : ℚ) (l : List ℚ) : ℚ :=
  l.foldl min a

/-- Maximum of a nonempty list given as head and tail. -/
def listMax (a : ℚ) (l : List ℚ) : ℚ :=
  l.foldl max a

/-- `_expand_bbox(bbox, xs, ys)`: widen the running box by the new points;
empty `xs`/`ys` leave it unchanged. -/
def expandBbox (b : Bbox) (xs ys : List ℚ) : Bbox :=
  match xs, ys with
  | [], _ => b
  | _, [] => b
  | x :: xt, y :: yt =>
    let lmnx := listMin x xt
    let lmxx := listMax x xt
    let lmny := listMin y yt
    let lmxy := listMax y yt
    (Option.some (match b.1 with | Option.none => lmnx | Option.some v => min v lmnx),
     Option.some (match b.2.1 with | Option.none => lmny | Option.some v => min v lmny),
     Option.some (match b.2.2.1 with | Option.none => lmxx | Option.some v => max v lmxx),
     Option.some (match b.2.2.2 with | Option.none => lmxy | Option.some v => max v lmxy))

/-- `(el.get("type") or "").lower()`: dict access, string-or-falsy guard,
lowercase. -/
def elType (el : PyVal) : Except Err String :=
  eb (pyGet el "type") (fun tv =>
  eb (pyStrOr tv) (fun s =>
  Except.ok (strLower s)))

/-- Total companion of `elType` for stating side conditions and filters. -/
def elTypeTot (el : PyVal) : String :=
  strLower (pyStrOrTot (dGet el "type"))

/-- The `(x, y)` pairs of a polygon `points` value that pass
`isinstance(p, (list, tuple)) and len(p) >= 2`, coerced with `_get_num`. -/
def validPairs (pts : List PyVal) : List (ℚ × ℚ) :=
  pts.filterMap (fun p =>
    match p with
    | PyVal.list (a :: b :: _) => Option.some (getNum a 0, getNum b 0)
    | _ => Option.none)

/-- One element's contribution step of `_compute_bbox`. -/
def bboxStep (w h : ℚ) (b : Bbox) (el : PyVal) : Except Err Bbox :=
  eb (elType el) (fun t =>
  if t = "circle" then
    let x := getNum (dGet el "x") (w / 2)
    let y := getNum (dGet el "y") (h / 2)
    let r := getNum (dGet el "radius") 0
    Except.ok (expandBbox b [x - r, x + r] [y - r, y + r])
  else if t = "line" then
    let x1 := getNum (dGet el "x") (w / 2)
    let y1 := getNum (dGet el "y") (h / 2)
    let x2 := getNum (dGet el "x2") (x1 + 10)
    let y2 := getNum (dGet el "y2") y1
    Except.ok (expandBbox b [x1, x2] [y1, y2])
  else if t = "polygon" then
    let pv := dGet el "points"
    eb (if pyTruthy pv then pyIter pv else Except.ok []) (fun pts =>
    let ps := validPairs pts
    Except.ok (expandBbox b (ps.map (fun p => p.1)) (ps.map (fun p => p.2))))
  else if t = "text" then
    let x := getNum (dGet el "x") (w / 2)
    let y := getNum (dGet el "y") (h / 2)
    Except.ok (expandBbox b [x] [y])
  else if t = "cluster_area" then
    let x := getNum (dGet el "x") (w / 2)
    let y := getNum (dGet el "y") (h / 2)
    let wd := getNum (dGet el "width") 100
    let ht := getNum (dGet el "height") 60
    Except.ok (expandBbox b [x, x + wd] [y, y + ht])
  else if t = "shape_cluster" then
    let acv := dGet el "area_center"
    let ac := if pyTruthy acv then acv else PyVal.list [PyVal.num (w / 2), PyVal.num (h / 2)]
    eb (pyIndex ac 0) (fun a0 =>
    eb (pyIndex ac 1) (fun a1 =>
    let cx := getNum a0 (w / 2)
    let cy := getNum a1 (h / 2)
    Except.ok (expandBbox b [cx - 50, cx + 50] [cy - 50, cy + 50])))
  else if t = "visualization_unit" then
    let x := getNum (dGet el "x") (w / 2)
    let ys := getNum (dGet el "y_start") (h / 2)
    Except.ok (expandBbox b [x - 30, x + 30] [ys, ys + 140])
  else
    Except.ok b)

/-- Fold of `bboxStep` over the element list. -/
def computeBboxAux (w h : ℚ) : Bbox → List PyVal → Except Err Bbox
  | b, [] => Except.ok b
  | b, el :: rest => eb (bboxStep w h b el) (fun b2 => computeBboxAux w h b2 rest)

/-- `_compute_bbox(elements, width, height)`. -/
def computeBbox (els : List PyVal) (w h : ℚ) : Except Err Bbox :=
  computeBboxAux w h (Option.none, Option.none, Option.none, Option.none) els

/-- Horizontal room left by the symmetric 10 percent side margins. -/
def availW (w : ℚ) : ℚ :=
  w - 2 * (w * (1 / 10))

/-- `margin_top = CONTENT_TOP_MARGIN + 10`. -/
def marginTopQ : ℚ :=
  CONTENT_TOP_MARGIN + 10

/-- `margin_bottom = (height - LEGEND_RESERVED_HEIGHT - 20) - 10`. -/
def marginBottomQ (h : ℚ) : ℚ :=
  (h - LEGEND_RESERVED_HEIGHT - 20) - 10

/-- Vertical room of the content band used for fitting. -/
def availH (h : ℚ) : ℚ :=
  marginBottomQ h - marginTopQ

/-- The guard of the scaling branch: all four bbox components present and
strictly positive extent on both axes; returns the components when it holds. -/
def fitGood : Bbox → Option (ℚ × ℚ × ℚ × ℚ)
  | (Option.some mnx, Option.some mny, Option.some mxx, Option.some mxy) =>
    if mnx < mxx ∧ mny < mxy then Option.some (mnx, mny, mxx, mxy) else Option.none
  | _ => Option.none

/-- `scale = min(avail_w / bbox_w, avail_h / bbox_h) * 0.95`. -/
def fitScale (w h mnx mny mxx mxy : ℚ) : ℚ :=
  min (availW w / (mxx - mnx)) (availH h / (mxy - mny)) * (19 / 20)

/-- The `tx` closure of the scaling branch. -/
def fitTx (w h mnx mny mxx mxy x : ℚ) : ℚ :=
  w / 2 + (x - (mnx + mxx) / 2) * fitScale w h mnx mny mxx mxy

/-- The `ty` closure of the scaling branch. -/
def fitTy (w h mnx mny mxx mxy y : ℚ) : ℚ :=
  (marginTopQ + marginBottomQ h) / 2 + (y - (mny + mxy) / 2) * fitScale w h mnx mny mxx mxy

/-- The `tx` function `render_visual_spec` ends up with: the scaling map when
the bbox is usable, the identity fallback otherwise. -/
def mkTx (w h : ℚ) (b : Bbox) : ℚ → ℚ :=
  match fitGood b with
  | Option.some (mnx, mny, mxx, mxy) => fitTx w h mnx mny mxx mxy
  | Option.none => fun x => x

/-- The `ty` function `render_visual_spec` ends up with. -/
def mkTy (w h : ℚ) (b : Bbox) : ℚ → ℚ :=
  match fitGood b with
  | Option.some (mnx, mny, mxx, mxy) => fitTy w h mnx mny mxx mxy
  | Option.none => fun y => y

/-- One SVG output node per `svg_parts.append(...)` site in the source,
carrying the interpolated attributes. -/
inductive Svg where
  | header (w h : ℚ)
  | bgRect (w h : ℚ) (fill : PyVal)
  | defsShadow
  | titleText (x y : ℚ) (content : String)
  | groupOpen
  | groupClose
  | clusterArea (x y w h : ℚ)
  | scTriangle (pts : List (ℚ × ℚ)) (color : PyVal) (opacity : ℚ)
  | scSpiral (pts : List (ℚ × ℚ)) (color : PyVal) (opacity : ℚ)
  | scSquare (pts : List (ℚ × ℚ)) (color : PyVal) (opacity : ℚ)
  | scStarburst (pts : List (ℚ × ℚ)) (color : PyVal) (opacity : ℚ)
  | timelinePath (p : WPath) (color : PyVal) (sw : ℚ)
  | vuBar (x y w h : ℚ)
  | vuCoffee (cx cy r : ℚ)
  | vuMood (pts : List (ℚ × ℚ))
  | vuLoop (pts : List (ℚ × ℚ))
  | vuDot (cx cy : ℚ)
  | circle (cx cy r : ℚ) (fill stroke : PyVal) (sw opacity : ℚ)
  | linePath (p : WPath) (stroke : PyVal) (sw opacity : ℚ)
  | polygon (pts : List (ℚ × ℚ)) (fill stroke : PyVal) (sw opacity : ℚ)
  | pathD (d : String) (fill stroke : PyVal) (sw opacity : ℚ)
  | text (x y : ℚ) (anchor : PyVal) (fontSize : ℚ) (fill : PyVal) (opacity : ℚ)
      (content : String)
  | legendBox (x y w h : ℚ)
  | legendTitle (x y : ℚ) (content : String)
  | legendMarker (cx cy : ℚ) (color : PyVal)
  | legendLabel (x y : ℚ) (content : String)
  | fallbackText (x y : ℚ)
  | svgClose

end VSpec

namespace VSpec

/-- One iteration of the `for _ in range(count)` loop of
`_render_shape_cluster`: jitter the cluster center, then draw one glyph of
the requested shape.  Draw indices follow source order; the first, discarded
triangle attempt (source lines 201 to 209) still consumes its seven draws. -/
def scIter (g : Nat → ℚ) (h cx cy : ℚ) (shape : String) (color : PyVal) (op : ℚ)
    (k : Nat) : List Svg × Nat :=
  let lcx := jitter (g k) cx 10
  let lcy := clampY (jitter (g (k + 1)) cy 10) h
  let k := k + 2
  if shape = "imperfect_triangle" then
    let k1 := k + 7
    let size := unif (g k1) 12 22
    let p0 : ℚ × ℚ :=
      (lcx + size * unif (g (k1 + 1)) (9/10) (11/10) * ((11/10) * 1),
       lcy + size * unif (g (k1 + 2)) (9/10) (11/10) * (6/10))
    let p1 : ℚ × ℚ :=
      (lcx + size * unif (g (k1 + 3)) (9/10) (11/10) * ((11/10) * (-(1/2))),
       lcy + size * unif (g (k1 + 4)) (9/10) (11/10) * 1)
    let p2 : ℚ × ℚ :=
      (lcx + size * unif (g (k1 + 5)) (9/10) (11/10) * ((11/10) * (-(1/2))),
       lcy + size * unif (g (k1 + 6)) (9/10) (11/10) * 1)
    ([Svg.scTriangle [p0, p1, p2] color op], k1 + 7)
  else if shape = "soft_spiral" then
    let radius := unif (g (k + 1)) 8 16
    let pts := (List.range 40).map (fun (i : Nat) =>
      let r := radius * ((i : ℚ) / 40)
      (lcx + r * (1/2) * unif (g (k + 2 + 2 * i)) (9/10) (11/10) *
        (if i % 2 = 0 then 1 else -1),
       lcy + r * (35/100) * unif (g (k + 3 + 2 * i)) (9/10) (11/10) *
        (if i % 3 = 0 then 1 else -1)))
    ([Svg.scSpiral pts color op], k + 2 + 80)
  else if shape = "wobbly_square" then
    let size := unif (g k) 14 22
    let pts : List (ℚ × ℚ) :=
      [(lcx + (-1) * size + unif (g (k + 1)) (-(5/2)) (5/2),
        lcy + (-1) * size + unif (g (k + 2)) (-(5/2)) (5/2)),
       (lcx + 1 * size + unif (g (k + 3)) (-(5/2)) (5/2),
        lcy + (-1) * size + unif (g (k + 4)) (-(5/2)) (5/2)),
       (lcx + 1 * size + unif (g (k + 5)) (-(5/2)) (5/2),
        lcy + 1 * size + unif (g (k + 6)) (-(5/2)) (5/2)),
       (lcx + (-1) * size + unif (g (k + 7)) (-(5/2)) (5/2),
        lcy + 1 * size + unif (g (k + 8)) (-(5/2)) (5/2))]
    ([Svg.scSquare pts color op], k + 9)
  else if shape = "starburst" then
    let rays := pyRandint (g k) 10 14
    let outer := unif (g (k + 1)) 14 22
    let inner := outer * (45/100)
    let n2 := rays.toNat * 2
    let pts := (List.range n2).map (fun (i : Nat) =>
      let r := if i % 2 = 0 then outer else inner
      (lcx + r * (9/10) * unif (g (k + 2 + 2 * i)) (9/10) (11/10) *
        (if i % 2 = 0 then 1 else -1),
       lcy + r * (6/10) * unif (g (k + 3 + 2 * i)) (9/10) (11/10) *
        (if i % 3 = 0 then 1 else -1)))
    ([Svg.scStarburst pts color op], k + 2 + 2 * n2)
  else
    ([], k)

/-- The whole `for _ in range(count)` loop of `_render_shape_cluster`. -/
def scLoop (g : Nat → ℚ) (h cx cy : ℚ) (shape : String) (color : PyVal) (op : ℚ) :
    Nat → Nat → List Svg × Nat
  | 0, k => ([], k)
  | n + 1, k =>
    let step := scIter g h cx cy shape color op k
    let rest := scLoop g h cx cy shape color op n step.2
    (step.1 ++ rest.1, rest.2)

/-- `_render_shape_cluster(svg_parts, el, tx_fn, ty_fn, height)`. -/
def renderShapeCluster (g : Nat → ℚ) (w h : ℚ) (txf tyf : ℚ → ℚ) (el : PyVal)
    (k : Nat) : Except Err (List Svg × Nat) :=
  let acv := dGet el "area_center"
  let ac := if pyTruthy acv then acv else PyVal.list [PyVal.num 0, PyVal.num 0]
  eb (pyIndex ac 0) (fun a0 =>
  eb (pyIndex ac 1) (fun a1 =>
  let cx := txf (getNum a0 0)
  let cy := clampY (tyf (getNum a1 0)) h
  let count := ratTrunc (getNum (dGet el "count") 3)
  let color := dGetD el "color" (PyVal.str "#333333")
  let op := getNum (dGet el "opacity") (85/100)
  eb (pyStrOr (dGet el "shape")) (fun shapeRaw =>
  Except.ok (scLoop g h cx cy (strLower shapeRaw) color op count.toNat k))))

/-- `timeline_separator` branch of the element loop. -/
def renderTimeline (g : Nat → ℚ) (w h : ℚ) (txf tyf : ℚ → ℚ) (el : PyVal)
    (k : Nat) : List Svg × Nat :=
  let xs := getNum (dGet el "x_start") 40
  let xe := getNum (dGet el "x_end") (w - 40)
  let yv := getNum (dGet el "y") (h / 2)
  let color := dGetD el "color" (PyVal.str "#999999")
  let swd := getNum (dGet el "stroke_width") (12/10)
  let y := clampY (tyf yv) h
  ([Svg.timelinePath (wobblePath (g k) (g (k + 1)) (txf xs) y (txf xe) y 2) color swd],
   k + 2)

/-- `_render_visualization_unit(svg_parts, el, tx_fn, ty_fn, height)`:
sleep bar, coffee circles, mood petal polygon, interaction scribble loops,
step-density dots, with draws consumed in source order.  The uniform draw
feeding the unused `angle` variable inside each scribble loop is still
consumed.  `vuData` models `data = el.get("data") or \x7b\x7d` followed by the
attribute accesses requiring a dict. -/
def vuData (v : PyVal) : Except Err PyVal :=
  if pyTruthy v then
    match v with
    | PyVal.dict kvs => Except.ok (PyVal.dict kvs)
    | _ => Except.error Err.attributeError
  else Except.ok (PyVal.dict [])

def renderVU (g : Nat → ℚ) (w h : ℚ) (txf tyf : ℚ → ℚ) (el : PyVal)
    (k : Nat) : Except Err (List Svg × Nat) :=
  let xRaw := getNum (dGetD el "x" (PyVal.num 0)) 0
  let ysRaw := getNum (dGetD el "y_start" (PyVal.num 0)) 0
  let x := txf xRaw
  let top := clampY (tyf ysRaw) h
  let panelH : ℚ := 130
  eb (vuData (dGet el "data")) (fun data =>
  let sleep := getNum (dGet data "sleep") 0
  let coffee := getNum (dGet data "coffee") 0
  let mood := getNum (dGet data "mood") 0
  let interactions := getNum (dGet data "interactions") 0
  let stepsDensity := getNum (dGet data "steps_density") 0
  let barH := sleep * 6
  let barX := x - 28
  let barBottom := top + panelH - 10
  let barTop := clampY (barBottom - barH) h
  let barNode := Svg.vuBar (jitter (g k) barX (3/2)) (jitter (g (k + 1)) barTop (3/2))
    16 (barBottom - barTop)
  let k := k + 2
  let cnt := (ratTrunc coffee).toNat
  let coffeeNodes := (List.range cnt).map (fun (n : Nat) =>
    Svg.vuCoffee (jitter (g (k + 2 * n)) x (6/5)) (jitter (g (k + 2 * n + 1)) (top + 20) (6/5))
      (3 + (n : ℚ) * 3))
  let k := k + 2 * cnt
  let moodRadius := 6 + mood * (3/2)
  let petalCx := x + 24
  let petalCy := top + 40
  let moodPts := (List.range 8).map (fun (i : Nat) =>
    let r := moodRadius * unif (g (k + i)) (8/10) (11/10)
    (petalCx + r * (9/10) * (if i % 2 = 0 then 1 else -1),
     petalCy + r * (6/10) * (if i % 3 = 0 then 1 else -1)))
  let k := k + 8
  let loops := (ratTrunc interactions).toNat
  let centerY := top + panelH * (6/10)
  let loopNodes := (List.range loops).map (fun (j : Nat) =>
    let kj := k + 53 * j
    let baseR := unif (g kj) 4 8
    let cxLoop := jitter (g (kj + 1)) x 6
    let cyLoop := clampY (jitter (g (kj + 2)) centerY 4) h
    Svg.vuLoop ((List.range 25).map (fun (i : Nat) =>
      let r := baseR * (7/10 + (3/10) * g (kj + 4 + 2 * i))
      (cxLoop + r * (9/10) * (if i % 2 = 0 then 1 else -1),
       cyLoop + r * (7/10) * (if i % 3 = 0 then 1 else -1)))))
  let k := k + 53 * loops
  let dots := (ratTrunc stepsDensity).toNat
  let baseY := top + panelH - 20
  let dotNodes := (List.range dots).map (fun (j : Nat) =>
    Svg.vuDot (x + unif (g (k + 2 * j)) (-12) 12)
      (clampY (baseY + unif (g (k + 2 * j + 1)) (-8) 8) h))
  let k := k + 2 * dots
  Except.ok (barNode :: coffeeNodes ++ [Svg.vuMood moodPts] ++ loopNodes ++ dotNodes, k))

/-- Fill/stroke resolution of the standard-primitive section (renderer.py
lines 554 to 566). -/
def resolveFS (el : PyVal) (t : String) : PyVal × PyVal :=
  let fill0 := dGetD el "fill" PyVal.none
  let stroke0 := dGetD el "stroke" PyVal.none
  let fill1 :=
    if !pyTruthy fill0 && dHasKey el "color" && t = "text" then dGet el "color" else fill0
  let stroke1 :=
    if pyTruthy fill1 && !pyTruthy stroke0 && !pyEqStr fill1 "none" && !(t = "text") then
      PyVal.str "#222222"
    else stroke0
  let fill2 := if !pyTruthy fill1 then PyVal.str "none" else fill1
  let stroke2 :=
    if !pyTruthy stroke1 && !(t = "text") then PyVal.str "#222222" else stroke1
  (fill2, stroke2)

/-- The `circle` branch: jittered scaled center (y clamped), jittered raw
radius floored at `0.8`. -/
def renderCircle (g : Nat → ℚ) (w h : ℚ) (txf tyf : ℚ → ℚ) (el : PyVal)
    (fill stroke : PyVal) (sw op : ℚ) (k : Nat) : List Svg × Nat :=
  let cxRaw := getNum (dGet el "x") (w / 2)
  let cyRaw := getNum (dGet el "y") (h / 2)
  let rRaw := getNum (dGet el "radius") 8
  let cx := jitter (g k) (txf cxRaw) (23/10)
  let cy := clampY (jitter (g (k + 1)) (tyf cyRaw) (23/10)) h
  let r := max (jitter (g (k + 2)) rRaw 1) (4/5)
  ([Svg.circle cx cy r fill stroke sw op], k + 3)

/-- The `line` branch: jittered scaled endpoints (y clamped), wobbly path. -/
def renderLine (g : Nat → ℚ) (w h : ℚ) (txf tyf : ℚ → ℚ) (el : PyVal)
    (stroke : PyVal) (sw op : ℚ) (k : Nat) : List Svg × Nat :=
  let x1Raw := getNum (dGet el "x") (w / 2)
  let y1Raw := getNum (dGet el "y") (h / 2)
  let x2Raw := getNum (dGet el "x2") (x1Raw + 10)
  let y2Raw := getNum (dGet el "y2") y1Raw
  let x1 := jitter (g k) (txf x1Raw) 2
  let y1 := clampY (jitter (g (k + 1)) (tyf y1Raw) 2) h
  let x2 := jitter (g (k + 2)) (txf x2Raw) 2
  let y2 := clampY (jitter (g (k + 3)) (tyf y2Raw) 2) h
  ([Svg.linePath (wobblePath (g (k + 4)) (g (k + 5)) x1 y1 x2 y2 3) stroke sw op], k + 6)

/-- The per-point loop of the `polygon` branch: valid pairs are scaled and
jittered (two draws each, y clamped), invalid entries are skipped. -/
def polyFold (g : Nat → ℚ) (h : ℚ) (txf tyf : ℚ → ℚ) :
    List PyVal → Nat → List (ℚ × ℚ) × Nat
  | [], k => ([], k)
  | p :: rest, k =>
    match p with
    | PyVal.list (a :: b :: _) =>
      let px := jitter (g k) (txf (getNum a 0)) (9/5)
      let py := clampY (jitter (g (k + 1)) (tyf (getNum b 0)) (9/5)) h
      let pr := polyFold g h txf tyf rest (k + 2)
      ((px, py) :: pr.1, pr.2)
    | _ => polyFold g h txf tyf rest k

/-- The `polygon` branch: requires a nonempty list value and at least one
valid pair, otherwise emits nothing. -/
def renderPolygon (g : Nat → ℚ) (h : ℚ) (txf tyf : ℚ → ℚ) (el : PyVal)
    (fill stroke : PyVal) (sw op : ℚ) (k : Nat) : List Svg × Nat :=
  match dGet el "points" with
  | PyVal.list pts =>
    if pts.isEmpty then ([], k)
    else
      let pr := polyFold g h txf tyf pts k
      if pr.1.isEmpty then ([], pr.2) else ([Svg.polygon pr.1 fill stroke sw op], pr.2)
  | _ => ([], k)

/-- The `path` branch: escape the `d` string and pass it through untouched
otherwise; empty/falsy `d` emits nothing. -/
def renderPathEl (el : PyVal) (fill stroke : PyVal) (sw op : ℚ) :
    Except Err (List Svg) :=
  let dv := dGet el "d"
  let dRaw := if pyTruthy dv then dv else PyVal.str ""
  if pyTruthy dRaw then
    eb (pyEscape dRaw) (fun s => Except.ok [Svg.pathD s fill stroke sw op])
  else Except.ok []

/-- The `text` branch: jittered anchor (y clamped), escaped content, font
size from `font_size` or `fontSize`, fill from `color`/`fill`, anchor from
`textAnchor` with a default depending on whether `"title"` occurs in the
`style` value. -/
def renderTextEl (g : Nat → ℚ) (w h : ℚ) (txf tyf : ℚ → ℚ) (el : PyVal)
    (op : ℚ) (k : Nat) : Except Err (List Svg × Nat) :=
  let xRaw := getNum (dGet el "x") (w / 2)
  let yRaw := getNum (dGet el "y") (h / 2)
  let xf := jitter (g k) (txf xRaw) (6/5)
  let yf := clampY (jitter (g (k + 1)) (tyf yRaw) (6/5)) h
  eb (pyEscape (dGet el "text")) (fun content =>
  let fsv := dGet el "font_size"
  let fsv2 := if pyTruthy fsv then fsv else dGet el "fontSize"
  let fontSize := getNum fsv2 14
  let fillText := dGetD el "color" (dGetD el "fill" (PyVal.str "#333333"))
  eb (pyInTitle (dGet el "style")) (fun hasTitle =>
  let anchor := dGetD el "textAnchor" (PyVal.str (if hasTitle then "middle" else "start"))
  Except.ok ([Svg.text xf yf anchor fontSize fillText op content], k + 2)))

/-- The body of the element loop of `render_visual_spec` for one element.
The decorative branches run before the fill/stroke/opacity resolution and so
consume no opacity draw; every element reaching the standard-primitive
section consumes one opacity draw even when its type matches no primitive. -/
def renderElement (g : Nat → ℚ) (w h : ℚ) (txf tyf : ℚ → ℚ) (el : PyVal)
    (k : Nat) : Except Err (List Svg × Nat) :=
  eb (elType el) (fun t =>
  if t = "cluster_area" then
    let x := txf (getNum (dGet el "x") (w / 2))
    let y := clampY (tyf (getNum (dGet el "y") (h / 2))) h
    let wd := getNum (dGet el "width") 120
    let ht := getNum (dGet el "height") 60
    Except.ok ([Svg.clusterArea (x - wd / 2) (y - ht / 2) wd ht], k)
  else if t = "shape_cluster" then
    renderShapeCluster g w h txf tyf el k
  else if t = "timeline_separator" then
    Except.ok (renderTimeline g w h txf tyf el k)
  else if t = "visualization_unit" then
    renderVU g w h txf tyf el k
  else if t = "legend_title_box" then
    Except.ok ([], k)
  else
    let fs := resolveFS el t
    let sw := getNum (dGet el "strokeWidth") (21/10)
    let op := getNum (dGet el "opacity") (unif (g k) (86/100) 1)
    let k1 := k + 1
    if t = "circle" then
      Except.ok (renderCircle g w h txf tyf el fs.1 fs.2 sw op k1)
    else if t = "line" then
      Except.ok (renderLine g w h txf tyf el fs.2 sw op k1)
    else if t = "polygon" then
      Except.ok (renderPolygon g h txf tyf el fs.1 fs.2 sw op k1)
    else if t = "path" then
      eb (renderPathEl el fs.1 fs.2 sw op) (fun out => Except.ok (out, k1))
    else if t = "text" then
      renderTextEl g w h txf tyf el op k1
    else
      Except.ok ([], k1))

/-- The element loop over the whole list. -/
def renderElems (g : Nat → ℚ) (w h : ℚ) (txf tyf : ℚ → ℚ) :
    List PyVal → Nat → Except Err (List Svg × Nat)
  | [], k => Except.ok ([], k)
  | el :: rest, k =>
    eb (renderElement g w h txf tyf el k) (fun pr =>
    eb (renderElems g w h txf tyf rest pr.2) (fun qr =>
    Except.ok (pr.1 ++ qr.1, qr.2)))

/-- Legend-shape classification (renderer.py lines 669 to 676): a dict gives
title and items, a flat list gives the items, anything else gives none. -/
def classifyLegend (v : PyVal) : PyVal × PyVal :=
  match v with
  | PyVal.dict _ =>
    (dGetD v "title" (PyVal.str "Legend"),
     let iv := dGetD v "items" (PyVal.list [])
     if pyTruthy iv then iv else PyVal.list [])
  | PyVal.list l => (PyVal.str "Legend", PyVal.list l)
  | _ => (PyVal.str "Legend", PyVal.list [])

/-- `legend_top = height - LEGEND_RESERVED_HEIGHT + 30`. -/
def legendTopQ (h : ℚ) : ℚ :=
  h - LEGEND_RESERVED_HEIGHT + 30

/-- Marker and label for one legend item at index `idx`. -/
def legendItemOut (h : ℚ) (idx : Nat) (item : PyVal) : Except Err (List Svg) :=
  let ly := legendTopQ h + 8 + (idx : ℚ) * 22
  eb (pyGetD item "color" (PyVal.str "#222222")) (fun color =>
  eb (pyGetD item "label" (PyVal.str "")) (fun labelV =>
  eb (pyEscape labelV) (fun label0 =>
  eb (pyGetD item "shape" PyVal.none) (fun shapeV =>
  let label := if pyTruthy shapeV then label0 ++ " — " ++ pyStr shapeV else label0
  Except.ok [Svg.legendMarker 70 ly color, Svg.legendLabel (70 + 18) (ly + 4) label]))))

/-- The enumerated legend-item loop. -/
def legendItemsOut (h : ℚ) : Nat → List PyVal → Except Err (List Svg)
  | _, [] => Except.ok []
  | idx, it :: rest =>
    eb (legendItemOut h idx it) (fun a =>
    eb (legendItemsOut h (idx + 1) rest) (fun b =>
    Except.ok (a ++ b)))

/-- The legend section of `render_visual_spec`, after classification:
skipped entirely when the item value is falsy, otherwise background box,
escaped title, then one marker and one label per item in a single column. -/
def renderLegendItems (w h : ℚ) (titleV itemsV : PyVal) : Except Err (List Svg) :=
  if pyTruthy itemsV then
    eb (pyIter itemsV) (fun items =>
    eb (pyEscape titleV) (fun titleS =>
    eb (legendItemsOut h 0 items) (fun itemParts =>
    Except.ok
      (Svg.legendBox (70 - 30) (legendTopQ h - 26) (w - 2 * (70 - 30))
         (LEGEND_RESERVED_HEIGHT - 40)
       :: Svg.legendTitle 70 (legendTopQ h - 6) titleS :: itemParts))))
  else Except.ok []

/-- Legend classification plus layout. -/
def renderLegendParts (w h : ℚ) (legendSpec : PyVal) : Except Err (List Svg) :=
  renderLegendItems w h (classifyLegend legendSpec).1 (classifyLegend legendSpec).2

/-- Canvas extraction of `render_visual_spec`:
`canvas = spec.get("canvas", \x7b\x7d) or \x7b\x7d` followed by
`int(canvas.get("width", 1200))` and `int(canvas.get("height", 800))`. -/
def canvasDims (spec : PyVal) : Except Err (ℤ × ℤ) :=
  eb (pyGetD spec "canvas" (PyVal.dict [])) (fun canvasRaw =>
  let canvas := if pyTruthy canvasRaw then canvasRaw else PyVal.dict []
  eb (pyGetD canvas "width" (PyVal.num 1200)) (fun wv =>
  eb (pyInt wv) (fun wi =>
  eb (pyGetD canvas "height" (PyVal.num 800)) (fun hv =>
  eb (pyInt hv) (fun hi =>
  Except.ok (wi, hi))))))

/-- `render_visual_spec(spec)`: the full pipeline — canvas, background,
title, bounding box, fit transform, element loop, legend, empty-elements
fallback — producing the ordered list of emitted SVG nodes. -/
def render (g : Nat → ℚ) (spec : PyVal) : Except Err (List Svg) :=
  eb (canvasDims spec) (fun wh =>
  let w : ℚ := (wh.1 : ℚ)
  let h : ℚ := (wh.2 : ℚ)
  eb (pyGetD spec "canvas" (PyVal.dict [])) (fun canvasRaw =>
  let canvas := if pyTruthy canvasRaw then canvasRaw else PyVal.dict []
  eb (pyGetD canvas "background" PyVal.none) (fun bg1 =>
  eb (pyGetD canvas "background_color" PyVal.none) (fun bg2 =>
  let background :=
    if pyTruthy bg1 then bg1 else if pyTruthy bg2 then bg2 else PyVal.str "#FDFBF7"
  eb (pyGetD spec "elements" (PyVal.list [])) (fun elsV =>
  eb (pyGetD spec "legend" PyVal.none) (fun legendSpec =>
  eb (pyGetD spec "title" (PyVal.str "")) (fun titleV0 =>
  let titleV := if pyTruthy titleV0 then titleV0 else PyVal.str ""
  eb (if pyTruthy titleV then
        eb (pyEscape titleV) (fun ts => Except.ok [Svg.titleText (w / 2) 50 ts])
      else Except.ok []) (fun titleParts =>
  let elsV2 := if pyTruthy elsV then elsV else PyVal.list []
  eb (pyIter elsV2) (fun elements =>
  eb (computeBbox elements w h) (fun bb =>
  eb (renderElems g w h (mkTx w h bb) (mkTy w h bb) elements 0) (fun body =>
  eb (renderLegendParts w h legendSpec) (fun legendParts =>
  Except.ok
    ([Svg.header w h, Svg.bgRect w h background, Svg.defsShadow] ++ titleParts ++
     [Svg.groupOpen] ++ body.1 ++ [Svg.groupClose] ++ legendParts ++
     (if elements.isEmpty then [Svg.fallbackText (w / 2) (h / 2)] else []) ++
     [Svg.svgClose])))))))))))))

end VSpec

namespace VSpec

/-- Is the value a string. -/
def isStr : PyVal → Bool
  | PyVal.str _ => true
  | _ => false

/-- Is the value a list. -/
def isList : PyVal → Bool
  | PyVal.list _ => true
  | _ => false

/-- Is the value a dict. -/
def isDict : PyVal → Bool
  | PyVal.dict _ => true
  | _ => false

/-- A value that can be used where the code does `(v or "")` followed by a
string method: a string, or anything falsy. -/
def strOrFalsy (v : PyVal) : Bool :=
  isStr v || !pyTruthy v

/-- A value that can be iterated (or is falsy and guarded away). -/
def iterOrFalsy (v : PyVal) : Bool :=
  isList v || isStr v || isDict v || !pyTruthy v

/-- `int(v)` succeeds. -/
def intOKB (v : PyVal) : Bool :=
  match pyInt v with
  | Except.ok _ => true
  | Except.error _ => false

/-- An `area_center` value the code can index at 0 and 1 (or falsy, replaced
by the default pair). -/
def acOK (v : PyVal) : Bool :=
  !pyTruthy v ||
    (match v with
     | PyVal.list (_ :: _ :: _) => true
     | _ => false)

/-- A `data` value usable by the visualization-unit renderer. -/
def dataOK (v : PyVal) : Bool :=
  !pyTruthy v || isDict v

/-- Well-typedness of one element: a dict whose `type` is a string or falsy,
with the extra per-type constraints the code needs to avoid raising. -/
def WFel (el : PyVal) : Bool :=
  isDict el && strOrFalsy (dGet el "type") &&
  (let t := elTypeTot el
   (!(t = "polygon") || iterOrFalsy (dGet el "points")) &&
   (!(t = "shape_cluster") ||
     (acOK (dGet el "area_center") && strOrFalsy (dGet el "shape"))) &&
   (!(t = "visualization_unit") || dataOK (dGet el "data")) &&
   (!(t = "path") || strOrFalsy (dGet el "d")) &&
   (!(t = "text") || (strOrFalsy (dGet el "text") && iterOrFalsy (dGet el "style"))))

/-- Well-typedness of one legend item. -/
def WFitem (it : PyVal) : Bool :=
  isDict it && strOrFalsy (dGetD it "label" (PyVal.str ""))

/-- Well-typedness of the `legend` value in either accepted shape. -/
def WFlegend (v : PyVal) : Bool :=
  match v with
  | PyVal.dict _ =>
    strOrFalsy (dGetD v "title" (PyVal.str "Legend")) &&
    (let iv := dGetD v "items" (PyVal.list [])
     !pyTruthy iv ||
       (match iv with
        | PyVal.list l => l.all WFitem
        | _ => false))
  | PyVal.list l => l.all WFitem
  | _ => true

/-- Well-typedness of the canvas: falsy or a dict whose width/height coerce
with `int(...)`. -/
def canvasOKB (spec : PyVal) : Bool :=
  let cr := dGetD spec "canvas" (PyVal.dict [])
  let c := if pyTruthy cr then cr else PyVal.dict []
  isDict c && intOKB (dGetD c "width" (PyVal.num 1200)) &&
    intOKB (dGetD c "height" (PyVal.num 800))

/-- Well-typedness of a whole spec document: the sufficient condition under
which the renderer is proven total. -/
def WFspec (spec : PyVal) : Bool :=
  isDict spec && canvasOKB spec && strOrFalsy (dGetD spec "title" (PyVal.str "")) &&
  (let ev := dGetD spec "elements" (PyVal.list [])
   !pyTruthy ev ||
     (match ev with
      | PyVal.list l => l.all WFel
      | _ => false)) &&
  WFlegend (dGetD spec "legend" PyVal.none)

/-- Whether the renderer's `elements` variable is falsy (the fallback-message
condition `if not elements`). -/
def elemsEmpty (spec : PyVal) : Bool :=
  !pyTruthy (dGetD spec "elements" (PyVal.list []))

/-- The error carried by a failed computation, `None` on success: models
"raises an exception". -/
def renderErr {α : Type} (r : Except Err α) : Option Err :=
  match r with
  | Except.error e => Option.some e
  | Except.ok _ => Option.none

/-- The node list of a successful render (empty on failure); used by the
statements that inspect emitted output. -/
def okParts (r : Except Err (List Svg)) : List Svg :=
  match r with
  | Except.ok l => l
  | Except.error _ => []

/-- x coordinates of the legend markers in a node list. -/
def markerXs (l : List Svg) : List ℚ :=
  l.filterMap (fun p =>
    match p with
    | Svg.legendMarker cx _ _ => Option.some cx
    | _ => Option.none)

/-- y coordinates of the legend markers in a node list. -/
def markerYs (l : List Svg) : List ℚ :=
  l.filterMap (fun p =>
    match p with
    | Svg.legendMarker _ cy _ => Option.some cy
    | _ => Option.none)

/-- The radius of the unique circle node of a successful element render. -/
def circleROf (r : Except Err (List Svg × Nat)) : Option ℚ :=
  match r with
  | Except.ok ([Svg.circle _ _ rr _ _ _ _], _) => Option.some rr
  | _ => Option.none

/-- The vertical position a legend-section glyph is placed at: the `y` of a
box or text, the `cy` of a marker. -/
def svgY : Svg → Option ℚ
  | Svg.titleText _ y _ => Option.some y
  | Svg.legendBox _ y _ _ => Option.some y
  | Svg.legendTitle _ y _ => Option.some y
  | Svg.legendMarker _ cy _ => Option.some cy
  | Svg.legendLabel _ y _ => Option.some y
  | Svg.fallbackText _ y => Option.some y
  | _ => Option.none

/-- Oracle stream drawing 0 at every step; used to instantiate closed
statements. -/
def gZero : Nat → ℚ := fun _ => 0

end VSpec

namespace VSpec

theorem pyStrOr_ok (v : PyVal) (h : strOrFalsy v = true) :
    pyStrOr v = Except.ok (pyStrOrTot v) := by
  cases v <;> simp_all [strOrFalsy, isStr, pyTruthy, pyStrOr, pyStrOrTot]

theorem pyEscape_ok (v : PyVal) (h : strOrFalsy v = true) :
    pyEscape v = Except.ok (escape (pyStrOrTot v)) := by
  simp [pyEscape, pyStrOr_ok v h]

theorem pyGetD_dict (v : PyVal) (key : String) (d : PyVal) (h : isDict v = true) :
    pyGetD v key d = Except.ok (dGetD v key d) := by
  cases v <;> simp_all [isDict, pyGetD, dGetD]

theorem elType_ok (el : PyVal) (h1 : isDict el = true)
    (h2 : strOrFalsy (dGet el "type") = true) :
    elType el = Except.ok (elTypeTot el) := by
  simp only [dGet] at h2
  simp [elType, pyGet, pyGetD_dict el "type" PyVal.none h1, pyStrOr_ok _ h2, elTypeTot, dGet]

theorem pyIter_some (v : PyVal) (h : (isList v || isStr v || isDict v) = true) :
    ∃ l, pyIter v = Except.ok l := by
  cases v <;> simp_all [isList, isStr, isDict, pyIter]

theorem pyInTitle_ok (v : PyVal) (h : iterOrFalsy v = true) :
    ∃ b, pyInTitle v = Except.ok b := by
  unfold pyInTitle
  by_cases ht : pyTruthy v = true
  · cases v <;> simp_all [iterOrFalsy, isList, isStr, isDict]
  · simp only [Bool.not_eq_true] at ht
    simp [ht]

theorem WFel_parts (el : PyVal) (hwf : WFel el = true) :
    isDict el = true ∧ strOrFalsy (dGet el "type") = true ∧
    (elTypeTot el = "polygon" → iterOrFalsy (dGet el "points") = true) ∧
    (elTypeTot el = "shape_cluster" →
      acOK (dGet el "area_center") = true ∧ strOrFalsy (dGet el "shape") = true) ∧
    (elTypeTot el = "visualization_unit" → dataOK (dGet el "data") = true) ∧
    (elTypeTot el = "path" → strOrFalsy (dGet el "d") = true) ∧
    (elTypeTot el = "text" →
      strOrFalsy (dGet el "text") = true ∧ iterOrFalsy (dGet el "style") = true) := by
  simp only [WFel, Bool.and_eq_true, Bool.or_eq_true, Bool.not_eq_true',
    decide_eq_false_iff_not] at hwf
  tauto

end VSpec

namespace VSpec

theorem ac_index_ok (v : PyVal) (hac : acOK v = true) :
    (∃ a, pyIndex (if pyTruthy v then v else PyVal.list [PyVal.num 0, PyVal.num 0]) 0 =
      Except.ok a) ∧
    (∃ a, pyIndex (if pyTruthy v then v else PyVal.list [PyVal.num 0, PyVal.num 0]) 1 =
      Except.ok a) := by
  by_cases ht : pyTruthy v = true
  · rw [if_pos ht]
    rcases v with _ | b | q | s | xs | kvs <;> simp_all [acOK]
    rcases xs with _ | ⟨a, _ | ⟨b, rest⟩⟩ <;> simp_all [pyIndex]
  · rw [if_neg ht]
    exact ⟨⟨_, rfl⟩, ⟨_, rfl⟩⟩

theorem renderShapeCluster_ok (g : Nat → ℚ) (w h : ℚ) (txf tyf : ℚ → ℚ) (el : PyVal)
    (k : Nat) (hac : acOK (dGet el "area_center") = true)
    (hsh : strOrFalsy (dGet el "shape") = true) :
    ∃ out, renderShapeCluster g w h txf tyf el k = Except.ok out := by
  obtain ⟨⟨a0, h0⟩, ⟨a1, h1⟩⟩ := ac_index_ok (dGet el "area_center") hac
  simp only [renderShapeCluster]
  rw [h0]
  simp only [eb_ok]
  rw [h1]
  simp only [eb_ok]
  rw [pyStrOr_ok _ hsh]
  simp only [eb_ok]
  exact ⟨_, rfl⟩

theorem vuData_ok (v : PyVal) (hd : dataOK v = true) :
    ∃ d, vuData v = Except.ok d := by
  unfold vuData
  by_cases ht : pyTruthy v = true
  · rw [if_pos ht]
    rcases v with _ | b | q | s | xs | kvs <;> simp_all [dataOK, isDict]
  · rw [if_neg ht]
    exact ⟨_, rfl⟩

theorem renderVU_ok (g : Nat → ℚ) (w h : ℚ) (txf tyf : ℚ → ℚ) (el : PyVal)
    (k : Nat) (hd : dataOK (dGet el "data") = true) :
    ∃ out, renderVU g w h txf tyf el k = Except.ok out := by
  obtain ⟨d, hdok⟩ := vuData_ok (dGet el "data") hd
  simp only [renderVU]
  rw [hdok]
  simp only [eb_ok]
  exact ⟨_, rfl⟩

theorem renderPathEl_ok (el : PyVal) (fill stroke : PyVal) (sw op : ℚ)
    (hd : strOrFalsy (dGet el "d") = true) :
    ∃ out, renderPathEl el fill stroke sw op = Except.ok out := by
  simp only [renderPathEl]
  by_cases ht : pyTruthy (dGet el "d") = true
  · rw [if_pos ht]
    by_cases h2 : pyTruthy (dGet el "d") = true
    · rw [if_pos h2, pyEscape_ok _ hd]
      exact ⟨_, rfl⟩
    · exact absurd ht h2
  · rw [if_neg ht, if_neg (by decide : ¬ pyTruthy (PyVal.str "") = true)]
    exact ⟨[], rfl⟩

theorem renderTextEl_ok (g : Nat → ℚ) (w h : ℚ) (txf tyf : ℚ → ℚ) (el : PyVal)
    (op : ℚ) (k : Nat) (htx : strOrFalsy (dGet el "text") = true)
    (hst : iterOrFalsy (dGet el "style") = true) :
    ∃ out, renderTextEl g w h txf tyf el op k = Except.ok out := by
  obtain ⟨bt, hb⟩ := pyInTitle_ok _ hst
  simp only [renderTextEl]
  rw [pyEscape_ok _ htx]
  simp only [eb_ok]
  rw [hb]
  simp only [eb_ok]
  exact ⟨_, rfl⟩

theorem renderElement_ok (g : Nat → ℚ) (w h : ℚ) (txf tyf : ℚ → ℚ) (el : PyVal)
    (k : Nat) (hwf : WFel el = true) :
    ∃ out, renderElement g w h txf tyf el k = Except.ok out := by
  obtain ⟨h1, h2, hpo, hsc, hvu, hpa, htx⟩ := WFel_parts el hwf
  simp only [renderElement, elType_ok el h1 h2, eb_ok]
  by_cases t1 : elTypeTot el = "cluster_area"
  · rw [if_pos t1]; exact ⟨_, rfl⟩
  rw [if_neg t1]
  by_cases t2 : elTypeTot el = "shape_cluster"
  · rw [if_pos t2]
    exact renderShapeCluster_ok g w h txf tyf el k (hsc t2).1 (hsc t2).2
  rw [if_neg t2]
  by_cases t3 : elTypeTot el = "timeline_separator"
  · rw [if_pos t3]; exact ⟨_, rfl⟩
  rw [if_neg t3]
  by_cases t4 : elTypeTot el = "visualization_unit"
  · rw [if_pos t4]
    exact renderVU_ok g w h txf tyf el k (hvu t4)
  rw [if_neg t4]
  by_cases t5 : elTypeTot el = "legend_title_box"
  · rw [if_pos t5]; exact ⟨_, rfl⟩
  rw [if_neg t5]
  by_cases t6 : elTypeTot el = "circle"
  · rw [if_pos t6]; exact ⟨_, rfl⟩
  rw [if_neg t6]
  by_cases t7 : elTypeTot el = "line"
  · rw [if_pos t7]; exact ⟨_, rfl⟩
  rw [if_neg t7]
  by_cases t8 : elTypeTot el = "polygon"
  · rw [if_pos t8]; exact ⟨_, rfl⟩
  rw [if_neg t8]
  by_cases t9 : elTypeTot el = "path"
  · rw [if_pos t9]
    obtain ⟨out, hout⟩ :=
      renderPathEl_ok el (resolveFS el (elTypeTot el)).1 (resolveFS el (elTypeTot el)).2
        (getNum (dGet el "strokeWidth") (21/10))
        (getNum (dGet el "opacity") (unif (g k) (86/100) 1)) (hpa t9)
    rw [hout]
    simp only [eb_ok]
    exact ⟨_, rfl⟩
  rw [if_neg t9]
  by_cases t10 : elTypeTot el = "text"
  · rw [if_pos t10]
    exact renderTextEl_ok g w h txf tyf el
      (getNum (dGet el "opacity") (unif (g k) (86/100) 1)) (k + 1) (htx t10).1 (htx t10).2
  rw [if_neg t10]
  exact ⟨_, rfl⟩

end VSpec

namespace VSpec

theorem bboxStep_ok (w h : ℚ) (b : Bbox) (el : PyVal) (hwf : WFel el = true) :
    ∃ b2, bboxStep w h b el = Except.ok b2 := by
  obtain ⟨h1, h2, hpo, hsc, hvu, hpa, htx⟩ := WFel_parts el hwf
  simp only [bboxStep, elType_ok el h1 h2, eb_ok]
  by_cases t1 : elTypeTot el = "circle"
  · rw [if_pos t1]; exact ⟨_, rfl⟩
  rw [if_neg t1]
  by_cases t2 : elTypeTot el = "line"
  · rw [if_pos t2]; exact ⟨_, rfl⟩
  rw [if_neg t2]
  by_cases t3 : elTypeTot el = "polygon"
  · rw [if_pos t3]
    by_cases ht : pyTruthy (dGet el "points") = true
    · rw [if_pos ht]
      obtain ⟨l, hl⟩ := pyIter_some (dGet el "points")
        (by
          have := hpo t3
          simp only [iterOrFalsy, Bool.or_eq_true, Bool.not_eq_true'] at this
          rcases this with ((ha | hb) | hc) | hd
          · simp [ha]
          · simp [hb]
          · simp [hc]
          · rw [hd] at ht; exact absurd ht (by simp))
      rw [hl]
      simp only [eb_ok]
      exact ⟨_, rfl⟩
    · rw [if_neg ht]
      simp only [eb_ok]
      exact ⟨_, rfl⟩
  rw [if_neg t3]
  by_cases t4 : elTypeTot el = "text"
  · rw [if_pos t4]; exact ⟨_, rfl⟩
  rw [if_neg t4]
  by_cases t5 : elTypeTot el = "cluster_area"
  · rw [if_pos t5]; exact ⟨_, rfl⟩
  rw [if_neg t5]
  by_cases t6 : elTypeTot el = "shape_cluster"
  · rw [if_pos t6]
    obtain ⟨⟨a0, h0⟩, ⟨a1, h1⟩⟩ := ac_index_ok (dGet el "area_center") (hsc t6).1
    rw [show
        (if pyTruthy (dGet el "area_center") then dGet el "area_center"
         else PyVal.list [PyVal.num (w / 2), PyVal.num (h / 2)]) =
        (if pyTruthy (dGet el "area_center") then dGet el "area_center"
         else PyVal.list [PyVal.num (w / 2), PyVal.num (h / 2)]) from rfl]
    by_cases ht : pyTruthy (dGet el "area_center") = true
    · rw [if_pos ht]
      rw [if_pos ht] at h0 h1
      rw [h0]
      simp only [eb_ok]
      rw [h1]
      simp only [eb_ok]
      exact ⟨_, rfl⟩
    · rw [if_neg ht]
      simp [pyIndex]
  rw [if_neg t6]
  by_cases t7 : elTypeTot el = "visualization_unit"
  · rw [if_pos t7]; exact ⟨_, rfl⟩
  rw [if_neg t7]
  exact ⟨_, rfl⟩

theorem computeBboxAux_ok (w h : ℚ) (els : List PyVal) :
    ∀ b, (∀ el ∈ els, WFel el = true) →
      ∃ b2, computeBboxAux w h b els = Except.ok b2 := by
  induction els with
  | nil => intro b _; exact ⟨b, rfl⟩
  | cons el rest ih =>
    intro b hall
    obtain ⟨b2, hb2⟩ := bboxStep_ok w h b el (hall el (by simp))
    obtain ⟨b3, hb3⟩ := ih b2 (fun e he => hall e (by simp [he]))
    refine ⟨b3, ?_⟩
    simp only [computeBboxAux]
    rw [hb2]
    simp only [eb_ok]
    exact hb3

theorem computeBbox_ok (els : List PyVal) (w h : ℚ)
    (hall : ∀ el ∈ els, WFel el = true) :
    ∃ b, computeBbox els w h = Except.ok b :=
  computeBboxAux_ok w h els _ hall

theorem renderElems_ok (g : Nat → ℚ) (w h : ℚ) (txf tyf : ℚ → ℚ)
    (els : List PyVal) :
    ∀ k, (∀ el ∈ els, WFel el = true) →
      ∃ out, renderElems g w h txf tyf els k = Except.ok out := by
  induction els with
  | nil => intro k _; exact ⟨_, rfl⟩
  | cons el rest ih =>
    intro k hall
    obtain ⟨pr, hpr⟩ := renderElement_ok g w h txf tyf el k (hall el (by simp))
    obtain ⟨qr, hqr⟩ := ih pr.2 (fun e he => hall e (by simp [he]))
    refine ⟨(pr.1 ++ qr.1, qr.2), ?_⟩
    simp only [renderElems]
    rw [hpr]
    simp only [eb_ok]
    rw [hqr]
    simp only [eb_ok]

theorem legendItemOut_ok (h : ℚ) (idx : Nat) (it : PyVal) (hwf : WFitem it = true) :
    ∃ out, legendItemOut h idx it = Except.ok out := by
  obtain ⟨hd, hl⟩ : isDict it = true ∧ strOrFalsy (dGetD it "label" (PyVal.str "")) = true := by
    simpa [WFitem, Bool.and_eq_true] using hwf
  simp only [legendItemOut]
  rw [pyGetD_dict it "color" _ hd]
  simp only [eb_ok]
  rw [pyGetD_dict it "label" _ hd]
  simp only [eb_ok]
  rw [pyEscape_ok _ hl]
  simp only [eb_ok]
  rw [pyGetD_dict it "shape" _ hd]
  simp only [eb_ok]
  exact ⟨_, rfl⟩

theorem legendItemsOut_ok (h : ℚ) (items : List PyVal) :
    ∀ idx, (∀ it ∈ items, WFitem it = true) →
      ∃ out, legendItemsOut h idx items = Except.ok out := by
  induction items with
  | nil => intro idx _; exact ⟨[], rfl⟩
  | cons it rest ih =>
    intro idx hall
    obtain ⟨a, ha⟩ := legendItemOut_ok h idx it (hall it (by simp))
    obtain ⟨bs, hb⟩ := ih (idx + 1) (fun e he => hall e (by simp [he]))
    refine ⟨a ++ bs, ?_⟩
    simp only [legendItemsOut]
    rw [ha]
    simp only [eb_ok]
    rw [hb]
    simp only [eb_ok]

theorem renderLegendItems_ok (w h : ℚ) (titleV : PyVal) (items : List PyVal)
    (hT : strOrFalsy titleV = true) (hall : ∀ it ∈ items, WFitem it = true) :
    ∃ out, renderLegendItems w h titleV (PyVal.list items) = Except.ok out := by
  simp only [renderLegendItems]
  by_cases ht : pyTruthy (PyVal.list items) = true
  · rw [if_pos ht]
    obtain ⟨out, hout⟩ := legendItemsOut_ok h items 0 hall
    simp only [pyIter, eb_ok]
    rw [pyEscape_ok _ hT]
    simp only [eb_ok]
    rw [hout]
    simp only [eb_ok]
    exact ⟨_, rfl⟩
  · rw [if_neg ht]
    exact ⟨[], rfl⟩

theorem renderLegendParts_ok (w h : ℚ) (v : PyVal) (hwf : WFlegend v = true) :
    ∃ out, renderLegendParts w h v = Except.ok out := by
  rcases v with _ | b | q | s | xs | kvs
  · exact renderLegendItems_ok w h (PyVal.str "Legend") [] rfl (by simp)
  · exact renderLegendItems_ok w h (PyVal.str "Legend") [] rfl (by simp)
  · exact renderLegendItems_ok w h (PyVal.str "Legend") [] rfl (by simp)
  · exact renderLegendItems_ok w h (PyVal.str "Legend") [] rfl (by simp)
  · simp only [WFlegend, List.all_eq_true] at hwf
    exact renderLegendItems_ok w h (PyVal.str "Legend") xs rfl hwf
  · simp only [WFlegend, Bool.and_eq_true, Bool.or_eq_true, Bool.not_eq_true'] at hwf
    obtain ⟨hT, hitems⟩ := hwf
    simp only [renderLegendParts, classifyLegend]
    by_cases ht : pyTruthy (dGetD (PyVal.dict kvs) "items" (PyVal.list [])) = true
    · rw [if_pos ht]
      rcases hitems with hfalse | hmatch
      · rw [hfalse] at ht; exact absurd ht (by simp)
      · rcases hv : dGetD (PyVal.dict kvs) "items" (PyVal.list []) with _ | _ | _ | _ | l | _ <;>
          rw [hv] at hmatch <;> simp_all
        exact renderLegendItems_ok w h _ l hT (by simpa [List.all_eq_true] using hmatch)
    · rw [if_neg ht]
      exact renderLegendItems_ok w h _ [] hT (by simp)

theorem intOK_ok (v : PyVal) (hv : intOKB v = true) : ∃ n, pyInt v = Except.ok n := by
  unfold intOKB at hv
  revert hv
  cases hpy : pyInt v <;> simp [hpy]

theorem canvasDims_ok (spec : PyVal) (h1 : isDict spec = true)
    (h2 : canvasOKB spec = true) :
    ∃ wh, canvasDims spec = Except.ok wh := by
  simp only [canvasOKB, Bool.and_eq_true] at h2
  obtain ⟨⟨hc, hw⟩, hh⟩ := h2
  simp only [canvasDims]
  rw [pyGetD_dict spec "canvas" _ h1]
  simp only [eb_ok]
  rw [pyGetD_dict _ "width" _ hc]
  simp only [eb_ok]
  obtain ⟨wi, hwi⟩ := intOK_ok _ hw
  rw [hwi]
  simp only [eb_ok]
  rw [pyGetD_dict _ "height" _ hc]
  simp only [eb_ok]
  obtain ⟨hi, hhi⟩ := intOK_ok _ hh
  rw [hhi]
  simp only [eb_ok]
  exact ⟨_, rfl⟩

end VSpec

namespace VSpec

theorem WFspec_parts (spec : PyVal) (hwf : WFspec spec = true) :
    isDict spec = true ∧ canvasOKB spec = true ∧
    strOrFalsy (dGetD spec "title" (PyVal.str "")) = true ∧
    (pyTruthy (dGetD spec "elements" (PyVal.list [])) = true →
      ∃ l, dGetD spec "elements" (PyVal.list []) = PyVal.list l ∧
        ∀ el ∈ l, WFel el = true) ∧
    WFlegend (dGetD spec "legend" PyVal.none) = true := by
  simp only [WFspec, Bool.and_eq_true, Bool.or_eq_true, Bool.not_eq_true'] at hwf
  obtain ⟨⟨⟨⟨h1, h2⟩, h3⟩, h4⟩, h5⟩ := hwf
  refine ⟨h1, h2, h3, ?_, h5⟩
  intro ht
  rcases h4 with hf | hm
  · exact absurd ht (by simp [hf])
  · rcases hv : dGetD spec "elements" (PyVal.list []) with _ | b | q | s | l | kvs <;>
      rw [hv] at hm
    · exact absurd hm (by simp)
    · exact absurd hm (by simp)
    · exact absurd hm (by simp)
    · exact absurd hm (by simp)
    · exact ⟨l, rfl, by simpa [List.all_eq_true] using hm⟩
    · exact absurd hm (by simp)

theorem render_tail_ok (g : Nat → ℚ) (w h : ℚ) (background : PyVal)
    (titleParts : List Svg) (elsV legendV : PyVal)
    (hels : pyTruthy elsV = true →
      ∃ l, elsV = PyVal.list l ∧ ∀ el ∈ l, WFel el = true)
    (hleg : WFlegend legendV = true) :
    ∃ out,
      (eb (pyIter (if pyTruthy elsV then elsV else PyVal.list []))
        (fun elements =>
         eb (computeBbox elements w h) (fun bb =>
         eb (renderElems g w h (mkTx w h bb) (mkTy w h bb) elements 0) (fun body =>
         eb (renderLegendParts w h legendV) (fun legendParts =>
         Except.ok
           ([Svg.header w h, Svg.bgRect w h background, Svg.defsShadow] ++ titleParts ++
            [Svg.groupOpen] ++ body.1 ++ [Svg.groupClose] ++ legendParts ++
            (if elements.isEmpty then [Svg.fallbackText (w / 2) (h / 2)] else []) ++
            [Svg.svgClose])))))) = Except.ok out ∧
      (pyTruthy elsV = false → Svg.fallbackText (w / 2) (h / 2) ∈ out) := by
  by_cases het : pyTruthy elsV = true
  · obtain ⟨l, hev, hall⟩ := hels het
    subst hev
    rw [if_pos het]
    simp only [pyIter, eb_ok]
    obtain ⟨bb, hbb⟩ := computeBbox_ok l w h hall
    rw [hbb]
    simp only [eb_ok]
    obtain ⟨body, hbody⟩ := renderElems_ok g w h (mkTx w h bb) (mkTy w h bb) l 0 hall
    rw [hbody]
    simp only [eb_ok]
    obtain ⟨lp, hlp⟩ := renderLegendParts_ok w h legendV hleg
    rw [hlp]
    simp only [eb_ok]
    refine ⟨_, rfl, ?_⟩
    intro hf
    exact absurd het (by simp [hf])
  · rw [if_neg het]
    simp only [pyIter, eb_ok]
    simp only [computeBbox, computeBboxAux, eb_ok]
    simp only [renderElems, eb_ok]
    obtain ⟨lp, hlp⟩ := renderLegendParts_ok w h legendV hleg
    rw [hlp]
    simp only [eb_ok]
    refine ⟨_, rfl, ?_⟩
    intro _
    simp [List.mem_append]

theorem render_wf (g : Nat → ℚ) (spec : PyVal) (hwf : WFspec spec = true) :
    ∃ wh out, canvasDims spec = Except.ok wh ∧ render g spec = Except.ok out ∧
      (elemsEmpty spec = true →
        Svg.fallbackText ((wh.1 : ℚ) / 2) ((wh.2 : ℚ) / 2) ∈ out) := by
  obtain ⟨h1, h2, h3, h4, h5⟩ := WFspec_parts spec hwf
  obtain ⟨wh, hcd⟩ := canvasDims_ok spec h1 h2
  have hcdict : isDict (if pyTruthy (dGetD spec "canvas" (PyVal.dict [])) = true then
      dGetD spec "canvas" (PyVal.dict []) else PyVal.dict []) = true := by
    simp only [canvasOKB, Bool.and_eq_true] at h2
    exact h2.1.1
  simp only [render]
  rw [hcd]
  simp only [eb_ok]
  rw [pyGetD_dict spec "canvas" _ h1]
  simp only [eb_ok]
  rw [pyGetD_dict _ "background" _ hcdict]
  simp only [eb_ok]
  rw [pyGetD_dict _ "background_color" _ hcdict]
  simp only [eb_ok]
  rw [pyGetD_dict spec "elements" _ h1]
  simp only [eb_ok]
  rw [pyGetD_dict spec "legend" _ h1]
  simp only [eb_ok]
  rw [pyGetD_dict spec "title" _ h1]
  simp only [eb_ok]
  by_cases htt : pyTruthy (dGetD spec "title" (PyVal.str "")) = true
  · rw [if_pos htt, if_pos htt, pyEscape_ok _ h3]
    simp only [eb_ok]
    obtain ⟨out, ho, hm⟩ := render_tail_ok g _ _ _ _ _ _ h4 h5
    refine ⟨wh, out, rfl, ho, ?_⟩
    intro he
    apply hm
    simp only [elemsEmpty, Bool.not_eq_true'] at he
    exact he
  · rw [if_neg htt, if_neg (show ¬ pyTruthy (PyVal.str "") = true by decide)]
    simp only [eb_ok]
    obtain ⟨out, ho, hm⟩ := render_tail_ok g _ _ _ _ _ _ h4 h5
    refine ⟨wh, out, rfl, ho, ?_⟩
    intro he
    apply hm
    simp only [elemsEmpty, Bool.not_eq_true'] at he
    exact he

end VSpec

namespace VSpec

theorem legendItemOut_shape (h : ℚ) (idx : Nat) (it : PyVal) (a : List Svg)
    (ha : legendItemOut h idx it = Except.ok a) :
    ∃ c lbl,
      a = [Svg.legendMarker 70 (legendTopQ h + 8 + (idx : ℚ) * 22) c,
           Svg.legendLabel (70 + 18) (legendTopQ h + 8 + (idx : ℚ) * 22 + 4) lbl] := by
  simp only [legendItemOut] at ha
  cases h1 : pyGetD it "color" (PyVal.str "#222222") with
  | error e => rw [h1] at ha; simp at ha
  | ok c =>
    rw [h1] at ha
    simp only [eb_ok] at ha
    cases h2 : pyGetD it "label" (PyVal.str "") with
    | error e => rw [h2] at ha; simp at ha
    | ok lv =>
      rw [h2] at ha
      simp only [eb_ok] at ha
      cases h3 : pyEscape lv with
      | error e => rw [h3] at ha; simp at ha
      | ok l0 =>
        rw [h3] at ha
        simp only [eb_ok] at ha
        cases h4 : pyGetD it "shape" PyVal.none with
        | error e => rw [h4] at ha; simp at ha
        | ok sv =>
          rw [h4] at ha
          simp only [eb_ok, Except.ok.injEq] at ha
          exact ⟨c, _, ha.symm⟩

theorem legendItemsOut_spec (h : ℚ) (items : List PyVal) :
    ∀ idx out, legendItemsOut h idx items = Except.ok out →
      markerXs out = items.map (fun _ => (70 : ℚ)) ∧
      markerYs out = (List.range items.length).map
        (fun i => legendTopQ h + 8 + ((idx + i : Nat) : ℚ) * 22) ∧
      (∀ p ∈ out, ∀ y, svgY p = Option.some y → legendTopQ h + 8 ≤ y) := by
  induction items with
  | nil =>
    intro idx out hout
    simp only [legendItemsOut, Except.ok.injEq] at hout
    subst hout
    simp [markerXs, markerYs]
  | cons it rest ih =>
    intro idx out hout
    simp only [legendItemsOut] at hout
    cases h1 : legendItemOut h idx it with
    | error e => rw [h1] at hout; simp at hout
    | ok a =>
      rw [h1] at hout
      simp only [eb_ok] at hout
      cases h2 : legendItemsOut h (idx + 1) rest with
      | error e => rw [h2] at hout; simp at hout
      | ok bs =>
        rw [h2] at hout
        simp only [eb_ok, Except.ok.injEq] at hout
        subst hout
        obtain ⟨c, lbl, hab⟩ := legendItemOut_shape h idx it a h1
        subst hab
        obtain ⟨ihx, ihy, ihb⟩ := ih (idx + 1) bs h2
        refine ⟨?_, ?_, ?_⟩
        · simp [markerXs, List.filterMap_append] at ihx ⊢
          exact ihx
        · simp only [markerYs, List.filterMap_append] at ihy ⊢
          simp only [List.filterMap, List.length_cons, List.range_succ_eq_map,
            List.map_cons, List.map_map]
          rw [ihy]
          simp only [List.singleton_append, List.cons.injEq]
          constructor
          · norm_num
          · apply List.map_congr_left
            intro i _
            simp only [Function.comp_apply, Nat.succ_eq_add_one]
            push_cast
            ring
        · intro p hp y hy
          have hb : (0 : ℚ) ≤ (idx : ℚ) * 22 := by positivity
          rcases List.mem_append.mp hp with hpa | hpb
          · simp only [List.mem_cons, List.not_mem_nil, or_false] at hpa
            rcases hpa with rfl | rfl
            · simp only [svgY, Option.some.injEq] at hy
              subst hy
              linarith
            · simp only [svgY, Option.some.injEq] at hy
              subst hy
              linarith
          · exact ihb p hpb y hy

end VSpec

namespace VSpec

theorem renderLegendItems_shape (w h : ℚ) (tV iV : PyVal) (out : List Svg)
    (hok : renderLegendItems w h tV iV = Except.ok out) (ht : pyTruthy iV = true) :
    ∃ items titleS itemParts,
      pyIter iV = Except.ok items ∧
      legendItemsOut h 0 items = Except.ok itemParts ∧
      out = Svg.legendBox (70 - 30) (legendTopQ h - 26) (w - 2 * (70 - 30))
              (LEGEND_RESERVED_HEIGHT - 40)
            :: Svg.legendTitle 70 (legendTopQ h - 6) titleS :: itemParts := by
  simp only [renderLegendItems, if_pos ht] at hok
  cases h1 : pyIter iV with
  | error e => rw [h1] at hok; simp at hok
  | ok items =>
    rw [h1] at hok
    simp only [eb_ok] at hok
    cases h2 : pyEscape tV with
    | error e => rw [h2] at hok; simp at hok
    | ok titleS =>
      rw [h2] at hok
      simp only [eb_ok] at hok
      cases h3 : legendItemsOut h 0 items with
      | error e => rw [h3] at hok; simp at hok
      | ok itemParts =>
        rw [h3] at hok
        simp only [eb_ok, Except.ok.injEq] at hok
        refine ⟨items, titleS, itemParts, ?_, ?_, hok.symm⟩ <;> simp [h1, h3]

/-- C9: every glyph the legend layout emits (background box, title, markers,
labels) sits at a vertical position of at least `height - LEGEND_RESERVED_HEIGHT`,
for any item count; and an empty/falsy item list produces no legend output at
all.  Confirms the claim. -/
theorem C9_legend_band :
    ∀ (w h : ℚ) (tV iV : PyVal) (out : List Svg),
      renderLegendItems w h tV iV = Except.ok out →
      (∀ p ∈ out, ∀ y, svgY p = Option.some y → h - LEGEND_RESERVED_HEIGHT ≤ y) ∧
      (pyTruthy iV = false → out = []) := by
  intro w h tV iV out hok
  by_cases ht : pyTruthy iV = true
  · obtain ⟨items, titleS, itemParts, hit, hio, hout⟩ :=
      renderLegendItems_shape w h tV iV out hok ht
    subst hout
    constructor
    · intro p hp y hy
      obtain ⟨-, -, hband⟩ := legendItemsOut_spec h items 0 itemParts hio
      simp only [List.mem_cons] at hp
      rcases hp with rfl | hp
      · simp only [svgY, Option.some.injEq] at hy
        subst hy
        simp only [legendTopQ, LEGEND_RESERVED_HEIGHT]
        linarith
      rcases hp with rfl | hp
      · simp only [svgY, Option.some.injEq] at hy
        subst hy
        simp only [legendTopQ, LEGEND_RESERVED_HEIGHT]
        linarith
      · have := hband p hp y hy
        simp only [legendTopQ, LEGEND_RESERVED_HEIGHT] at this ⊢
        linarith
    · intro hf
      exact absurd ht (by simp [hf])
  · have hout : out = [] := by
      simp only [renderLegendItems, if_neg ht, Except.ok.injEq] at hok
      exact hok.symm
    subst hout
    exact ⟨by intro p hp; simp at hp, fun _ => rfl⟩

/-- C9 witness: the theorem applied at the empty item list for a
1200 by 800 canvas. -/
theorem C9_legend_band_witness :
    (∀ p ∈ ([] : List Svg), ∀ y, svgY p = Option.some y →
      (800 : ℚ) - LEGEND_RESERVED_HEIGHT ≤ y) ∧
    (pyTruthy (PyVal.list []) = false → ([] : List Svg) = []) :=
  C9_legend_band 1200 800 (PyVal.str "Legend") (PyVal.list []) [] rfl

/-- C2 (amended): the legend loop lays items out in a single column for every
item count: all markers sit at x = 70 and marker i sits at
y = height - LEGEND_RESERVED_HEIGHT + 30 + 8 + i * 22, a constant 22-pixel
line height.  There is no threshold and no second column; the reserved band
height never changes, so for large item counts the column simply runs past
the canvas bottom (see the counterexample). -/
theorem C2_legend_single_column :
    ∀ (w h : ℚ) (t : String) (items : List PyVal) (out : List Svg),
      renderLegendItems w h (PyVal.str t) (PyVal.list items) = Except.ok out →
      markerXs out = items.map (fun _ => (70 : ℚ)) ∧
      markerYs out = (List.range items.length).map
        (fun (i : Nat) => h - LEGEND_RESERVED_HEIGHT + 30 + 8 + (i : ℚ) * 22) := by
  intro w h t items out hok
  by_cases ht : pyTruthy (PyVal.list items) = true
  · obtain ⟨items2, titleS, itemParts, hit, hio, hout⟩ :=
      renderLegendItems_shape w h _ _ out hok ht
    have hi2 : items = items2 := by
      simpa [pyIter] using hit
    subst hi2
    subst hout
    obtain ⟨hx, hy, -⟩ := legendItemsOut_spec h items 0 itemParts hio
    constructor
    · simpa [markerXs] using hx
    · have : markerYs (Svg.legendBox (70 - 30) (legendTopQ h - 26) (w - 2 * (70 - 30))
          (LEGEND_RESERVED_HEIGHT - 40)
          :: Svg.legendTitle 70 (legendTopQ h - 6) titleS :: itemParts) =
          markerYs itemParts := by
        simp [markerYs]
      rw [this, hy]
      apply List.map_congr_left
      intro i _
      simp only [Nat.zero_add, legendTopQ]
  · have hie : items = [] := by
      rcases items with _ | ⟨a, l⟩
      · rfl
      · exact absurd (by simp [pyTruthy] : pyTruthy (PyVal.list (a :: l)) = true) ht
    subst hie
    have hout : out = [] := by
      simp only [renderLegendItems, if_neg ht, Except.ok.injEq] at hok
      exact hok.symm
    subst hout
    simp [markerXs, markerYs]

/-- C2 witness: a single well-formed item at height 800. -/
theorem C2_legend_single_column_witness :
    markerXs (okParts (renderLegendItems 1200 800 (PyVal.str "Legend")
        (PyVal.list [PyVal.dict [("label", PyVal.str "A")]])))
      = [PyVal.dict [("label", PyVal.str "A")]].map (fun _ => (70 : ℚ)) ∧
    markerYs (okParts (renderLegendItems 1200 800 (PyVal.str "Legend")
        (PyVal.list [PyVal.dict [("label", PyVal.str "A")]])))
      = (List.range 1).map
        (fun (i : Nat) => (800 : ℚ) - LEGEND_RESERVED_HEIGHT + 30 + 8 + (i : ℚ) * 22) :=
  C2_legend_single_column 1200 800 "Legend" [PyVal.dict [("label", PyVal.str "A")]] _ rfl

/-- Eight identical legend items used to refute the two-column claim. -/
def items8 : List PyVal :=
  List.replicate 8 (PyVal.dict [("label", PyVal.str "x")])

/-- C2 counterexample: with 8 items (above the claimed threshold of 7) the
code still emits one single column — all eight markers share x = 70 — and
the eighth marker sits at y = 852, outside the canvas (height 800) and far
below the reserved band, contradicting both the two-columns-of-ceil(n/2)
layout and the claim that the legend's vertical extent stays within the
fixed reserved band. -/
theorem C2_no_two_columns :
    markerXs (okParts (renderLegendItems 1200 800 (PyVal.str "Legend")
        (PyVal.list items8))) = [70, 70, 70, 70, 70, 70, 70, 70] ∧
    markerYs (okParts (renderLegendItems 1200 800 (PyVal.str "Legend")
        (PyVal.list items8))) = [698, 720, 742, 764, 786, 808, 830, 852] ∧
    ¬ ((852 : ℚ) ≤ 800) := by
  obtain ⟨hx, hy⟩ := C2_legend_single_column 1200 800 "Legend" items8
    (okParts (renderLegendItems 1200 800 (PyVal.str "Legend") (PyVal.list items8))) rfl
  refine ⟨?_, ?_, by norm_num⟩
  · rw [hx]
    decide
  · rw [hy]
    have h8 : items8.length = 8 := rfl
    rw [h8]
    norm_num [List.range_succ, LEGEND_RESERVED_HEIGHT]

end VSpec

namespace VSpec

/-- A document whose single element carries a non-string `type` field; the
renderer crashes on it at `(el.get("type") or "").lower()`. -/
def specBadType : PyVal :=
  PyVal.dict [("elements", PyVal.list [PyVal.dict [("type", PyVal.num 5)]])]

/-- C1 counterexample: the claim "never raises an exception" is false.  On a
spec whose `elements` list contains an entry with the number 5 as its `type`
(a type-invalid entry in the claim's sense), `render_visual_spec` raises an
`AttributeError` at `(el.get("type") or "").lower()` inside `_compute_bbox`,
since `5 or ""` is `5` and integers have no `.lower()`. -/
theorem C1_invalid_type_raises :
    renderErr (render gZero specBadType) = Option.some Err.attributeError := by
  decide

/-- C1 (amended): `render_visual_spec` returns a well-formed image for every
spec whose fields are well-typed in the sense of `WFspec`: the document is a
dict; the canvas is absent, falsy, or a dict with `int(...)`-coercible
width/height; the title is a string or falsy; `elements` is falsy or a list
of dicts whose `type` fields are strings or falsy, with `points` iterable or
falsy, `area_center` a pair-or-longer list or falsy, `data` a dict or falsy,
`d`/`text` strings or falsy and `style` iterable or falsy; and the legend is
well-typed in either accepted shape.  Outside these conditions the code can
raise (see the counterexample), so the original unconditional claim fails. -/
theorem C1_renderer_totality :
    ∀ (g : Nat → ℚ) (spec : PyVal), WFspec spec = true →
      ∃ out, render g spec = Except.ok out := by
  intro g spec hwf
  obtain ⟨wh, out, -, ho, -⟩ := render_wf g spec hwf
  exact ⟨out, ho⟩

/-- A representative well-typed spec. -/
def specGood : PyVal :=
  PyVal.dict [("elements", PyVal.list [PyVal.dict
    [("type", PyVal.str "circle"), ("x", PyVal.num 100), ("y", PyVal.num 100),
     ("radius", PyVal.num 5)]])]

/-- C1 witness: the totality theorem applied to a concrete well-typed spec. -/
theorem C1_renderer_totality_witness :
    WFspec specGood = true ∧ ∃ out, render gZero specGood = Except.ok out :=
  ⟨by decide, C1_renderer_totality gZero specGood (by decide)⟩

/-- A document with an empty `elements` list but a canvas width that
`int(...)` cannot parse. -/
def specBadCanvas : PyVal :=
  PyVal.dict [("elements", PyVal.list []),
    ("canvas", PyVal.dict [("width", PyVal.str "abc")])]

/-- C8 counterexample: the claim's "does not raise" part is false as stated.
With `elements = []` but `canvas.width = "abc"`, `int(canvas.get("width",
1200))` raises a `ValueError` before the fallback message is ever reached. -/
theorem C8_bad_canvas_raises :
    renderErr (render gZero specBadCanvas) = Option.some Err.valueError := by
  decide

/-- C8 (amended): whenever the `elements` value is empty/falsy and the rest
of the document is well-typed (`WFspec`), the renderer succeeds and its
output contains the centered fallback text node at `(width/2, height/2)`
carrying the "no visual elements generated" message; with an ill-typed
canvas the code can still raise even when `elements` is empty (see the
counterexample). -/
theorem C8_empty_elements_fallback :
    ∀ (g : Nat → ℚ) (spec : PyVal) (wh : ℤ × ℤ),
      WFspec spec = true → elemsEmpty spec = true →
      canvasDims spec = Except.ok wh →
      ∃ out, render g spec = Except.ok out ∧
        Svg.fallbackText ((wh.1 : ℚ) / 2) ((wh.2 : ℚ) / 2) ∈ out := by
  intro g spec wh hwf he hcd
  obtain ⟨wh2, out, hcd2, ho, hm⟩ := render_wf g spec hwf
  have hw : wh = wh2 := by
    rw [hcd] at hcd2
    exact (Except.ok.injEq _ _).mp hcd2
  subst hw
  exact ⟨out, ho, hm he⟩

/-- A well-typed spec with an empty element list and the default canvas. -/
def specEmpty : PyVal :=
  PyVal.dict [("elements", PyVal.list [])]

/-- C8 witness: the fallback theorem applied to an empty-elements spec with
the default 1200 by 800 canvas. -/
theorem C8_empty_elements_fallback_witness :
    ∃ out, render gZero specEmpty = Except.ok out ∧
      Svg.fallbackText (((1200 : ℤ) : ℚ) / 2) (((800 : ℤ) : ℚ) / 2) ∈ out :=
  C8_empty_elements_fallback gZero specEmpty (1200, 800) (by decide) (by decide) rfl

end VSpec

namespace VSpec

theorem pyStrOr_ok_inv (v : PyVal) (s : String) (h : pyStrOr v = Except.ok s) :
    strOrFalsy v = true := by
  by_cases ht : pyTruthy v = true
  · cases v <;> simp_all [pyStrOr, strOrFalsy, isStr]
  · simp only [Bool.not_eq_true] at ht
    simp [strOrFalsy, ht]

theorem elType_err_nondict (el : PyVal) (hd : isDict el = false) :
    elType el = Except.error Err.attributeError := by
  cases el <;> simp_all [elType, pyGet, pyGetD, isDict]

theorem elType_ok_inv (el : PyVal) (t : String) (h : elType el = Except.ok t) :
    isDict el = true ∧ strOrFalsy (dGet el "type") = true ∧ t = elTypeTot el := by
  have hdict : isDict el = true := by
    by_contra hc
    rw [elType_err_nondict el (by simpa using hc)] at h
    simp at h
  unfold elType pyGet at h
  rw [pyGetD_dict el "type" PyVal.none hdict] at h
  simp only [eb_ok] at h
  cases hs : pyStrOr (dGetD el "type" PyVal.none) with
  | error e => rw [hs] at h; simp at h
  | ok s =>
    rw [hs] at h
    simp only [eb_ok, Except.ok.injEq] at h
    have h1 : strOrFalsy (dGet el "type") = true := pyStrOr_ok_inv _ _ (by rw [← dGet] at hs; exact hs)
    refine ⟨hdict, h1, ?_⟩
    have h2 := pyStrOr_ok (dGet el "type") h1
    rw [dGet] at h2
    rw [hs] at h2
    have h3 : s = pyStrOrTot (dGet el "type") := by
      have := (Except.ok.injEq _ _).mp h2
      rw [dGet]
      exact this
    rw [← h, h3, elTypeTot]

/-- The element types that contribute to the bounding box in `_compute_bbox`. -/
def contributesB (el : PyVal) : Bool :=
  isDict el && strOrFalsy (dGet el "type") &&
  (elTypeTot el = "circle" || elTypeTot el = "line" || elTypeTot el = "polygon" ||
   elTypeTot el = "text" || elTypeTot el = "cluster_area" ||
   elTypeTot el = "shape_cluster" || elTypeTot el = "visualization_unit")

theorem bboxStep_skip (w h : ℚ) (b : Bbox) (el : PyVal) (b2 : Bbox)
    (h2 : bboxStep w h b el = Except.ok b2) (hnc : contributesB el = false) :
    b2 = b := by
  simp only [bboxStep] at h2
  cases he : elType el with
  | error e => rw [he] at h2; simp at h2
  | ok t =>
    rw [he] at h2
    simp only [eb_ok] at h2
    obtain ⟨hd, hs, ht⟩ := elType_ok_inv el t he
    subst ht
    simp only [contributesB, hd, hs, Bool.and_self, Bool.true_and,
      Bool.or_eq_false_iff, decide_eq_false_iff_not] at hnc
    obtain ⟨⟨⟨⟨⟨⟨n1, n2⟩, n3⟩, n4⟩, n5⟩, n6⟩, n7⟩ := hnc
    rw [if_neg n1, if_neg n2, if_neg n3, if_neg n4, if_neg n5, if_neg n6, if_neg n7] at h2
    exact ((Except.ok.injEq _ _).mp h2).symm

theorem computeBboxAux_filter (w h : ℚ) :
    ∀ (els : List PyVal) (b b2 : Bbox),
      computeBboxAux w h b els = Except.ok b2 →
      computeBboxAux w h b (els.filter contributesB) = Except.ok b2 := by
  intro els
  induction els with
  | nil => intro b b2 h2; simpa using h2
  | cons el rest ih =>
    intro b b2 h2
    simp only [computeBboxAux] at h2
    cases hbs : bboxStep w h b el with
    | error e => rw [hbs] at h2; simp at h2
    | ok bm =>
      rw [hbs] at h2
      simp only [eb_ok] at h2
      by_cases hc : contributesB el = true
      · rw [List.filter_cons_of_pos hc]
        simp only [computeBboxAux]
        rw [hbs]
        simp only [eb_ok]
        exact ih bm b2 h2
      · have hm : bm = b := bboxStep_skip w h b el bm hbs (by simpa using hc)
        subst hm
        rw [List.filter_cons_of_neg (by simpa using hc)]
        exact ih bm b2 h2

/-- A circle element with the given center and radius. -/
def mkCircleEl (x y r : ℚ) : PyVal :=
  PyVal.dict [("type", PyVal.str "circle"), ("x", PyVal.num x), ("y", PyVal.num y),
    ("radius", PyVal.num r)]

/-- A shape-cluster element centered at the given point. -/
def mkSCEl (cx cy : ℚ) : PyVal :=
  PyVal.dict [("type", PyVal.str "shape_cluster"),
    ("area_center", PyVal.list [PyVal.num cx, PyVal.num cy])]

/-- A path element with the given `d` string. -/
def mkPathEl (d : String) : PyVal :=
  PyVal.dict [("type", PyVal.str "path"), ("d", PyVal.str d)]

/-- A timeline-separator element at the given height. -/
def mkTimelineEl (y : ℚ) : PyVal :=
  PyVal.dict [("type", PyVal.str "timeline_separator"), ("y", PyVal.num y)]

/-- A cluster-area element with the given corner and extent. -/
def mkCAEl (x y wd ht : ℚ) : PyVal :=
  PyVal.dict [("type", PyVal.str "cluster_area"), ("x", PyVal.num x), ("y", PyVal.num y),
    ("width", PyVal.num wd), ("height", PyVal.num ht)]

/-- A visualization-unit element at the given x and starting height. -/
def mkVUEl (x ys : ℚ) : PyVal :=
  PyVal.dict [("type", PyVal.str "visualization_unit"), ("x", PyVal.num x),
    ("y_start", PyVal.num ys)]

/-- A line element with the given endpoints. -/
def mkLineEl (x1 y1 x2 y2 : ℚ) : PyVal :=
  PyVal.dict [("type", PyVal.str "line"), ("x", PyVal.num x1), ("y", PyVal.num y1),
    ("x2", PyVal.num x2), ("y2", PyVal.num y2)]

/-- A minimal `text` element carrying raw text `s` at `(x, y)`. -/
def mkTextEl (s : String) (x y : ℚ) : PyVal :=
  PyVal.dict [("type", PyVal.str "text"), ("x", PyVal.num x), ("y", PyVal.num y),
    ("text", PyVal.str s)]

/-- A two-vertex polygon element. -/
def mkPolyEl (a b c d : ℚ) : PyVal :=
  PyVal.dict [("type", PyVal.str "polygon"),
    ("points", PyVal.list [PyVal.list [PyVal.num a, PyVal.num b],
      PyVal.list [PyVal.num c, PyVal.num d]])]

/-- C3 (amended): the bounding box is invariant under dropping every element
that is not of one of the seven contributing types (circle, line, polygon,
text, cluster_area, shape_cluster, visualization_unit) — in particular
`path`, `timeline_separator`, `legend_title_box` and unknown types
contribute nothing — and, contrary to the original claim, the
semantic/decorative cluster and day-panel types do contribute: a lone circle
yields center plus/minus radius, a lone line the span of its two endpoints,
a lone polygon the span of its vertices, a lone text element its anchor
point, a lone cluster area yields the corner-anchored rectangle spanned by
x..x+width and y..y+height, a lone shape cluster yields its area center
plus/minus 50 on both axes, a lone visualization unit yields x plus/minus 30
horizontally and y_start..y_start+140 vertically, while a lone path or
timeline separator yields the empty (all-`None`) box. -/
theorem C3_bbox_contributors :
    (∀ (els : List PyVal) (w h : ℚ) (b : Bbox),
      computeBbox els w h = Except.ok b →
      computeBbox (els.filter contributesB) w h = Except.ok b) ∧
    (∀ (w h x y r : ℚ), computeBbox [mkCircleEl x y r] w h =
      Except.ok (Option.some (min (x - r) (x + r)), Option.some (min (y - r) (y + r)),
        Option.some (max (x - r) (x + r)), Option.some (max (y - r) (y + r)))) ∧
    (∀ (w h x1 y1 x2 y2 : ℚ), computeBbox [mkLineEl x1 y1 x2 y2] w h =
      Except.ok (Option.some (min x1 x2), Option.some (min y1 y2),
        Option.some (max x1 x2), Option.some (max y1 y2))) ∧
    (∀ (w h a b c d : ℚ), computeBbox [mkPolyEl a b c d] w h =
      Except.ok (Option.some (min a c), Option.some (min b d),
        Option.some (max a c), Option.some (max b d))) ∧
    (∀ (w h x y : ℚ) (s : String), computeBbox [mkTextEl s x y] w h =
      Except.ok (Option.some x, Option.some y, Option.some x, Option.some y)) ∧
    (∀ (w h x y wd ht : ℚ), computeBbox [mkCAEl x y wd ht] w h =
      Except.ok (Option.some (min x (x + wd)), Option.some (min y (y + ht)),
        Option.some (max x (x + wd)), Option.some (max y (y + ht)))) ∧
    (∀ (w h cx cy : ℚ), computeBbox [mkSCEl cx cy] w h =
      Except.ok (Option.some (cx - 50), Option.some (cy - 50),
        Option.some (cx + 50), Option.some (cy + 50))) ∧
    (∀ (w h x ys : ℚ), computeBbox [mkVUEl x ys] w h =
      Except.ok (Option.some (x - 30), Option.some ys,
        Option.some (x + 30), Option.some (ys + 140))) ∧
    (∀ (w h : ℚ) (d : String), computeBbox [mkPathEl d] w h =
      Except.ok (Option.none, Option.none, Option.none, Option.none)) ∧
    (∀ (w h y : ℚ), computeBbox [mkTimelineEl y] w h =
      Except.ok (Option.none, Option.none, Option.none, Option.none)) := by
  refine ⟨fun els w h b hb => computeBboxAux_filter w h els
      (Option.none, Option.none, Option.none, Option.none) b hb, ?_, ?_, ?_, ?_, ?_, ?_, ?_, ?_, ?_⟩
  · intro w h x y r
    rfl
  · intro w h x1 y1 x2 y2
    rfl
  · intro w h a b c d
    rfl
  · intro w h x y s
    rfl
  · intro w h x y wd ht
    rfl
  · intro w h cx cy
    have h0 : computeBbox [mkSCEl cx cy] w h =
        Except.ok (Option.some (min (cx - 50) (cx + 50)), Option.some (min (cy - 50) (cy + 50)),
          Option.some (max (cx - 50) (cx + 50)), Option.some (max (cy - 50) (cy + 50))) := rfl
    rw [h0, min_eq_left (by linarith), min_eq_left (by linarith),
      max_eq_right (by linarith), max_eq_right (by linarith)]
  · intro w h x ys
    have h0 : computeBbox [mkVUEl x ys] w h =
        Except.ok (Option.some (min (x - 30) (x + 30)), Option.some (min ys (ys + 140)),
          Option.some (max (x - 30) (x + 30)), Option.some (max ys (ys + 140))) := rfl
    rw [h0, min_eq_left (by linarith), min_eq_left (by linarith),
      max_eq_right (by linarith), max_eq_right (by linarith)]
  · intro w h d
    rfl
  · intro w h y
    rfl

/-- C3 counterexample: a document whose only element is a `shape_cluster`
(a semantic/decorative element claimed to contribute nothing) produces the
non-empty bounding box (50, 50, 150, 150) rather than the empty all-`None`
box the claim requires. -/
theorem C3_shape_cluster_contributes :
    computeBbox [mkSCEl 100 100] 1200 800 =
      Except.ok (Option.some 50, Option.some 50, Option.some 150, Option.some 150) ∧
    ¬ (computeBbox [mkSCEl 100 100] 1200 800 =
      Except.ok (Option.none, Option.none, Option.none, Option.none)) := by
  have h0 : computeBbox [mkSCEl 100 100] 1200 800 =
      Except.ok (Option.some (min ((100 : ℚ) - 50) (100 + 50)),
        Option.some (min ((100 : ℚ) - 50) (100 + 50)),
        Option.some (max ((100 : ℚ) - 50) (100 + 50)),
        Option.some (max ((100 : ℚ) - 50) (100 + 50))) := rfl
  have h1 : computeBbox [mkSCEl 100 100] 1200 800 =
      Except.ok (Option.some 50, Option.some 50, Option.some 150, Option.some 150) := by
    rw [h0]
    norm_num
  exact ⟨h1, by rw [h1]; simp⟩

/-- C3 witness: dropping the single (non-contributing) path element from a
list leaves the bounding box unchanged. -/
theorem C3_bbox_contributors_witness :
    computeBbox (([mkPathEl "M0,0 L5,5"]).filter contributesB) 1200 800 =
      Except.ok (Option.none, Option.none, Option.none, Option.none) :=
  C3_bbox_contributors.1 [mkPathEl "M0,0 L5,5"] 1200 800
    (Option.none, Option.none, Option.none, Option.none) rfl

end VSpec

namespace VSpec

theorem jitter_close (u v a : ℚ) (h0 : 0 ≤ u) (h1 : u ≤ 1) (ha : 0 ≤ a) :
    |jitter u v a - v| ≤ a := by
  rw [abs_le]
  unfold jitter unif
  constructor <;> nlinarith

/-- C4 (amended): the radius the circle branch emits is the element's RAW
radius (default 8) jittered by at most 1 and floored at 0.8 — the fit
transform's scale factor is never applied to it, contrary to the original
claim (see the counterexample); the floor does make it always at least 0.8,
hence strictly positive. -/
theorem C4_circle_radius_unscaled :
    ∀ (g : Nat → ℚ) (w h : ℚ) (txf tyf : ℚ → ℚ) (el fill stroke : PyVal)
      (sw op : ℚ) (k : Nat),
      (∀ n, 0 ≤ g n ∧ g n ≤ 1) →
      ∃ cx cy,
        renderCircle g w h txf tyf el fill stroke sw op k =
          ([Svg.circle cx cy
              (max (jitter (g (k + 2)) (getNum (dGet el "radius") 8) 1) (4/5))
              fill stroke sw op], k + 3) ∧
        (4/5 : ℚ) ≤ max (jitter (g (k + 2)) (getNum (dGet el "radius") 8) 1) (4/5) ∧
        (max (jitter (g (k + 2)) (getNum (dGet el "radius") 8) 1) (4/5) = 4/5 ∨
          |max (jitter (g (k + 2)) (getNum (dGet el "radius") 8) 1) (4/5)
            - getNum (dGet el "radius") 8| ≤ 1) := by
  intro g w h txf tyf el fill stroke sw op k hg
  refine ⟨_, _, rfl, le_max_right _ _, ?_⟩
  rcases max_cases (jitter (g (k + 2)) (getNum (dGet el "radius") 8) 1) (4/5 : ℚ) with
    ⟨heq, -⟩ | ⟨heq, -⟩
  · right
    rw [heq]
    exact jitter_close (g (k + 2)) (getNum (dGet el "radius") 8) 1
      (hg (k + 2)).1 (hg (k + 2)).2 (by norm_num)
  · left
    exact heq

/-- C4 witness: the amended radius theorem at the all-zero oracle. -/
theorem C4_circle_radius_unscaled_witness :
    ∃ cx cy,
      renderCircle gZero 1200 800 (fun x => x) (fun y => y) (mkCircleEl 20 20 10)
          PyVal.none PyVal.none 1 1 0 =
        ([Svg.circle cx cy
            (max (jitter (gZero 2) (getNum (dGet (mkCircleEl 20 20 10) "radius") 8) 1) (4/5))
            PyVal.none PyVal.none 1 1], 0 + 3) ∧
      (4/5 : ℚ) ≤ max (jitter (gZero 2) (getNum (dGet (mkCircleEl 20 20 10) "radius") 8) 1) (4/5) ∧
      (max (jitter (gZero 2) (getNum (dGet (mkCircleEl 20 20 10) "radius") 8) 1) (4/5) = 4/5 ∨
        |max (jitter (gZero 2) (getNum (dGet (mkCircleEl 20 20 10) "radius") 8) 1) (4/5)
          - getNum (dGet (mkCircleEl 20 20 10) "radius") 8| ≤ 1) :=
  C4_circle_radius_unscaled gZero 1200 800 (fun x => x) (fun y => y) (mkCircleEl 20 20 10)
    PyVal.none PyVal.none 1 1 0 (fun _ => by norm_num [gZero])

/-- The bounding box 0..40 on both axes, used to exhibit a fit scale far
from 1. -/
def bb0 : Bbox := (Option.some 0, Option.some 0, Option.some 40, Option.some 40)

/-- C4 counterexample: for a circle of raw radius 10 rendered under a fit
transform whose scale factor is 1007/80 (so a scaled radius of 1007/8 =
125.875), the emitted radius is 9 — the raw radius jittered by -1 — which is
far outside the interval [1007/8 - 1, 1007/8 + 1] that "scaled then slightly
jittered (amplitude 1) then floored" would allow.  The radius is therefore
not scaled by the fit transform's scale factor. -/
theorem C4_radius_not_scaled :
    circleROf (renderElement gZero 1200 800 (mkTx 1200 800 bb0) (mkTy 1200 800 bb0)
        (mkCircleEl 20 20 10) 0) = Option.some 9 ∧
    fitScale 1200 800 0 0 40 40 * 10 = 1007 / 8 ∧
    ¬ ((1007 / 8 : ℚ) - 1 ≤ 9 ∧ (9 : ℚ) ≤ 1007 / 8 + 1) := by
  refine ⟨?_, ?_, by norm_num⟩
  · have h0 : circleROf (renderElement gZero 1200 800 (mkTx 1200 800 bb0)
        (mkTy 1200 800 bb0) (mkCircleEl 20 20 10) 0) =
        Option.some (max (jitter (gZero 2)
          (getNum (dGet (mkCircleEl 20 20 10) "radius") 8) 1) (4/5)) := rfl
    have hr : getNum (dGet (mkCircleEl 20 20 10) "radius") 8 = 10 := rfl
    have h1 : jitter (gZero 2) (getNum (dGet (mkCircleEl 20 20 10) "radius") 8) 1 = 9 := by
      rw [hr]; norm_num [jitter, unif, gZero]
    rw [h0, h1, max_eq_left (by norm_num)]
  · norm_num [fitScale, availW, availH, marginTopQ, marginBottomQ,
      CONTENT_TOP_MARGIN, LEGEND_RESERVED_HEIGHT, min_def]

/-- C5: for a usable bounding box (all four components present, strictly
positive extent on both axes) the fit maps are affine with the single scale
factor min(avail_w/bbox_w, avail_h/bbox_h) * 0.95 — a shrink factor of 19/20,
within 0.9..0.95 and strictly below 1 — applied identically on both axes,
and they take the bbox center to the content-band center
(width/2, (margin_top + margin_bottom)/2).  Confirms the claim. -/
theorem C5_fit_transform :
    ∀ (w h mnx mny mxx mxy : ℚ), mnx < mxx → mny < mxy →
      (∀ x, mkTx w h (Option.some mnx, Option.some mny, Option.some mxx, Option.some mxy) x =
        w / 2 + (x - (mnx + mxx) / 2) * fitScale w h mnx mny mxx mxy) ∧
      (∀ y, mkTy w h (Option.some mnx, Option.some mny, Option.some mxx, Option.some mxy) y =
        (marginTopQ + marginBottomQ h) / 2 + (y - (mny + mxy) / 2) * fitScale w h mnx mny mxx mxy) ∧
      fitScale w h mnx mny mxx mxy =
        min (availW w / (mxx - mnx)) (availH h / (mxy - mny)) * (19 / 20) ∧
      ((9 : ℚ) / 10 ≤ 19 / 20 ∧ (19 : ℚ) / 20 < 1) ∧
      mkTx w h (Option.some mnx, Option.some mny, Option.some mxx, Option.some mxy)
        ((mnx + mxx) / 2) = w / 2 ∧
      mkTy w h (Option.some mnx, Option.some mny, Option.some mxx, Option.some mxy)
        ((mny + mxy) / 2) = (marginTopQ + marginBottomQ h) / 2 ∧
      (∀ x1 x2, mkTx w h (Option.some mnx, Option.some mny, Option.some mxx, Option.some mxy) x1 -
        mkTx w h (Option.some mnx, Option.some mny, Option.some mxx, Option.some mxy) x2 =
        fitScale w h mnx mny mxx mxy * (x1 - x2)) ∧
      (∀ y1 y2, mkTy w h (Option.some mnx, Option.some mny, Option.some mxx, Option.some mxy) y1 -
        mkTy w h (Option.some mnx, Option.some mny, Option.some mxx, Option.some mxy) y2 =
        fitScale w h mnx mny mxx mxy * (y1 - y2)) := by
  intro w h mnx mny mxx mxy hx hy
  have hg : fitGood (Option.some mnx, Option.some mny, Option.some mxx, Option.some mxy) =
      Option.some (mnx, mny, mxx, mxy) := by
    simp [fitGood, hx, hy]
  refine ⟨?_, ?_, rfl, by norm_num, ?_, ?_, ?_, ?_⟩
  · intro x; simp [mkTx, hg, fitTx]
  · intro y; simp [mkTy, hg, fitTy]
  · simp [mkTx, hg, fitTx]
  · simp [mkTy, hg, fitTy]
  · intro x1 x2; simp [mkTx, hg, fitTx]; ring
  · intro y1 y2; simp [mkTy, hg, fitTy]; ring

/-- C5 witness: the fit-transform theorem at a 40 by 40 bounding box on the
default canvas; the bbox center maps to the horizontal canvas center. -/
theorem C5_fit_transform_witness :
    mkTx 1200 800 (Option.some 0, Option.some 0, Option.some 40, Option.some 40)
      ((0 + 40) / 2) = 1200 / 2 :=
  (C5_fit_transform 1200 800 0 0 40 40 (by decide) (by decide)).2.2.2.2.1

/-- C6: when the bounding box is empty (all components `None`: no
positionable elements) or degenerate (equal min and max on either axis), the
maps the renderer uses are the identity on both coordinates — no scale is
applied and no division happens.  Confirms the claim. -/
theorem C6_identity_fallback :
    (∀ (w h x y : ℚ),
      mkTx w h (Option.none, Option.none, Option.none, Option.none) x = x ∧
      mkTy w h (Option.none, Option.none, Option.none, Option.none) y = y) ∧
    (∀ (w h mnx mny mxx mxy x y : ℚ), mnx = mxx ∨ mny = mxy →
      mkTx w h (Option.some mnx, Option.some mny, Option.some mxx, Option.some mxy) x = x ∧
      mkTy w h (Option.some mnx, Option.some mny, Option.some mxx, Option.some mxy) y = y) := by
  constructor
  · intro w h x y
    exact ⟨rfl, rfl⟩
  · intro w h mnx mny mxx mxy x y hdeg
    have hg : fitGood (Option.some mnx, Option.some mny, Option.some mxx, Option.some mxy) =
        Option.none := by
      rcases hdeg with he | he <;> subst he <;> simp [fitGood]
    constructor
    · simp [mkTx, hg]
    · simp [mkTy, hg]

/-- C6 witness: a single-point bounding box (5, 1) to (5, 9) — degenerate in
x — leaves both coordinates untouched. -/
theorem C6_identity_fallback_witness :
    mkTx 1200 800 (Option.some 5, Option.some 1, Option.some 5, Option.some 9) 7 = 7 ∧
    mkTy 1200 800 (Option.some 5, Option.some 1, Option.some 5, Option.some 9) 3 = 3 :=
  C6_identity_fallback.2 1200 800 5 1 5 9 7 3 (Or.inl rfl)

end VSpec

namespace VSpec

/-- The entity a single character becomes under the five `replace` passes of
`_escape`, seen charwise. -/
def entityOf (c : Char) : List Char :=
  if c = Char.ofNat 38 then "&amp;".data
  else if c = Char.ofNat 60 then "&lt;".data
  else if c = Char.ofNat 62 then "&gt;".data
  else if c = Char.ofNat 34 then "&quot;".data
  else if c = aposChar then "&apos;".data
  else [c]

/-- The five `replace` passes of `_escape` on a character list. -/
def escapeL (l : List Char) : List Char :=
  replaceChar aposChar ("&apos;".data)
    (replaceChar (Char.ofNat 34) ("&quot;".data)
      (replaceChar (Char.ofNat 62) ("&gt;".data)
        (replaceChar (Char.ofNat 60) ("&lt;".data)
          (replaceChar (Char.ofNat 38) ("&amp;".data) l))))

theorem replaceChar_append (c : Char) (r l1 l2 : List Char) :
    replaceChar c r (l1 ++ l2) = replaceChar c r l1 ++ replaceChar c r l2 := by
  induction l1 with
  | nil => rfl
  | cons d t ih => simp [replaceChar, ih]

theorem escapeL_append (l1 l2 : List Char) :
    escapeL (l1 ++ l2) = escapeL l1 ++ escapeL l2 := by
  simp [escapeL, replaceChar_append]

theorem escapeL_single (c : Char) : escapeL [c] = entityOf c := by
  by_cases h1 : c = Char.ofNat 38
  · subst h1; decide
  by_cases h2 : c = Char.ofNat 60
  · subst h2; decide
  by_cases h3 : c = Char.ofNat 62
  · subst h3; decide
  by_cases h4 : c = Char.ofNat 34
  · subst h4; decide
  by_cases h5 : c = aposChar
  · subst h5; decide
  simp [escapeL, replaceChar, entityOf, h1, h2, h3, h4, h5]

theorem escapeL_bind (l : List Char) : escapeL l = l.flatMap entityOf := by
  induction l with
  | nil => rfl
  | cons c t ih =>
    have h : escapeL (c :: t) = escapeL [c] ++ escapeL t := escapeL_append [c] t
    rw [h, escapeL_single, ih, List.flatMap_cons]

theorem entityOf_no_special (c : Char) :
    Char.ofNat 60 ∉ entityOf c ∧ Char.ofNat 62 ∉ entityOf c ∧
    Char.ofNat 34 ∉ entityOf c ∧ aposChar ∉ entityOf c := by
  unfold entityOf
  split_ifs with h1 h2 h3 h4 h5
  · decide
  · decide
  · decide
  · decide
  · decide
  · refine ⟨?_, ?_, ?_, ?_⟩ <;> simp only [List.mem_singleton]
    · exact fun h => h2 h.symm
    · exact fun h => h3 h.symm
    · exact fun h => h4 h.symm
    · exact fun h => h5 h.symm

theorem escape_data (s : String) : (escape s).data = s.data.flatMap entityOf :=
  escapeL_bind s.data

end VSpec

namespace VSpec

/-- C7: the escape pass of the renderer acts character by character: each of
the five XML-significant characters becomes its entity (`&` must go to
`&amp;`, `<` to `&lt;`, `>` to `&gt;`, `"` to `&quot;`, the apostrophe to
`&apos;`) and every other character is kept as itself; consequently no `<`,
`>`, `"` or apostrophe survives in any escaped string, the sample text
`<script>&"'` escapes exactly to `&lt;script&gt;&amp;&quot;&apos;`, and the
`text` branch embeds precisely the escaped text in the emitted node.
Confirms the claim. -/
theorem C7_text_escaping :
    (∀ s : String, (escape s).data = s.data.flatMap entityOf) ∧
    entityOf (Char.ofNat 38) = "&amp;".data ∧
    entityOf (Char.ofNat 60) = "&lt;".data ∧
    entityOf (Char.ofNat 62) = "&gt;".data ∧
    entityOf (Char.ofNat 34) = "&quot;".data ∧
    entityOf aposChar = "&apos;".data ∧
    (∀ c : Char, c ≠ Char.ofNat 38 → c ≠ Char.ofNat 60 → c ≠ Char.ofNat 62 →
      c ≠ Char.ofNat 34 → c ≠ aposChar → entityOf c = [c]) ∧
    (∀ s : String, Char.ofNat 60 ∉ (escape s).data ∧ Char.ofNat 62 ∉ (escape s).data ∧
      Char.ofNat 34 ∉ (escape s).data ∧ aposChar ∉ (escape s).data) ∧
    escape "<script>&\"'" = "&lt;script&gt;&amp;&quot;&apos;" ∧
    (∀ (g : Nat → ℚ) (w h : ℚ) (txf tyf : ℚ → ℚ) (op : ℚ) (k : Nat) (s : String) (x y : ℚ),
      renderTextEl g w h txf tyf (mkTextEl s x y) op k =
        Except.ok ([Svg.text (jitter (g k) (txf x) (6/5))
          (clampY (jitter (g (k + 1)) (tyf y) (6/5)) h)
          (PyVal.str "start") 14 (PyVal.str "#333333") op (escape s)], k + 2)) := by
  refine ⟨escape_data, by decide, by decide, by decide, by decide, by decide, ?_, ?_, by decide, ?_⟩
  · intro c h1 h2 h3 h4 h5
    simp [entityOf, h1, h2, h3, h4, h5]
  · intro s
    rw [escape_data s]
    refine ⟨?_, ?_, ?_, ?_⟩ <;> rw [List.mem_flatMap] <;> rintro ⟨c, -, hm⟩
    · exact (entityOf_no_special c).1 hm
    · exact (entityOf_no_special c).2.1 hm
    · exact (entityOf_no_special c).2.2.1 hm
    · exact (entityOf_no_special c).2.2.2 hm
  · intro g w h txf tyf op k s x y
    rfl

/-- C7 witness: the charwise map keeps an ordinary letter unchanged. -/
theorem C7_text_escaping_witness :
    entityOf (Char.ofNat 97) = [Char.ofNat 97] :=
  C7_text_escaping.2.2.2.2.2.2.1 (Char.ofNat 97) (by decide) (by decide) (by decide)
    (by decide) (by decide)

end VSpec

namespace VSpec

theorem clampY_band (y h : ℚ) (hh : CONTENT_TOP_MARGIN ≤ h - LEGEND_RESERVED_HEIGHT - 20) :
    CONTENT_TOP_MARGIN ≤ clampY y h ∧ clampY y h ≤ h - LEGEND_RESERVED_HEIGHT - 20 := by
  simp only [clampY]
  split_ifs with h1 h2 <;> constructor <;> linarith

theorem polyFold_mem (g : Nat → ℚ) (h : ℚ) (txf tyf : ℚ → ℚ)
    (hg : ∀ n, 0 ≤ g n ∧ g n ≤ 1)
    (hh : CONTENT_TOP_MARGIN ≤ h - LEGEND_RESERVED_HEIGHT - 20) :
    ∀ (pts : List PyVal) (k : Nat) (q : ℚ × ℚ), q ∈ (polyFold g h txf tyf pts k).1 →
      (CONTENT_TOP_MARGIN ≤ q.2 ∧ q.2 ≤ h - LEGEND_RESERVED_HEIGHT - 20) ∧
      ∃ c, |q.1 - txf c| ≤ 9/5 := by
  intro pts
  induction pts with
  | nil =>
    intro k q hq
    simp [polyFold] at hq
  | cons p rest ih =>
    intro k q hq
    cases p with
    | list l =>
      match l with
      | [] => exact ih k q (by simpa [polyFold] using hq)
      | [a] => exact ih k q (by simpa [polyFold] using hq)
      | a :: b :: l2 =>
        simp only [polyFold] at hq
        rcases List.mem_cons.mp hq with hEq | hmem
        · subst hEq
          refine ⟨clampY_band _ h hh, ⟨getNum a 0, ?_⟩⟩
          exact jitter_close (g k) (txf (getNum a 0)) (9/5) (hg k).1 (hg k).2 (by norm_num)
        · exact ih (k + 2) q hmem
    | none => exact ih k q (by simpa [polyFold] using hq)
    | bool b => exact ih k q (by simpa [polyFold] using hq)
    | num n => exact ih k q (by simpa [polyFold] using hq)
    | str s => exact ih k q (by simpa [polyFold] using hq)
    | dict d => exact ih k q (by simpa [polyFold] using hq)

end VSpec

namespace VSpec

/-- C10: with oracle draws in the unit interval and a usable content band
(CONTENT_TOP_MARGIN at most height - LEGEND_RESERVED_HEIGHT - 20), every y
coordinate the standard primitives emit — the circle center, both line
endpoints, every polygon vertex and the text anchor — passes through
`_clamp_y` and therefore lies in the closed band
[CONTENT_TOP_MARGIN, height - LEGEND_RESERVED_HEIGHT - 20], while every
x coordinate is emitted as the jittered fit-transformed value with no clamp
(it stays within the jitter amplitude of the transformed raw value).
Confirms the claim. -/
theorem C10_y_clamp_band :
    ∀ (g : Nat → ℚ) (w h : ℚ) (txf tyf : ℚ → ℚ) (el fill stroke : PyVal)
      (sw op : ℚ) (k : Nat),
      (∀ n, 0 ≤ g n ∧ g n ≤ 1) →
      CONTENT_TOP_MARGIN ≤ h - LEGEND_RESERVED_HEIGHT - 20 →
      (∀ y : ℚ, CONTENT_TOP_MARGIN ≤ clampY y h ∧
        clampY y h ≤ h - LEGEND_RESERVED_HEIGHT - 20) ∧
      (renderCircle g w h txf tyf el fill stroke sw op k =
        ([Svg.circle (jitter (g k) (txf (getNum (dGet el "x") (w / 2))) (23/10))
          (clampY (jitter (g (k + 1)) (tyf (getNum (dGet el "y") (h / 2))) (23/10)) h)
          (max (jitter (g (k + 2)) (getNum (dGet el "radius") 8) 1) (4/5))
          fill stroke sw op], k + 3) ∧
        CONTENT_TOP_MARGIN ≤
          clampY (jitter (g (k + 1)) (tyf (getNum (dGet el "y") (h / 2))) (23/10)) h ∧
        clampY (jitter (g (k + 1)) (tyf (getNum (dGet el "y") (h / 2))) (23/10)) h ≤
          h - LEGEND_RESERVED_HEIGHT - 20 ∧
        |jitter (g k) (txf (getNum (dGet el "x") (w / 2))) (23/10) -
          txf (getNum (dGet el "x") (w / 2))| ≤ 23/10) ∧
      (renderLine g w h txf tyf el stroke sw op k =
        ([Svg.linePath (wobblePath (g (k + 4)) (g (k + 5))
            (jitter (g k) (txf (getNum (dGet el "x") (w / 2))) 2)
            (clampY (jitter (g (k + 1)) (tyf (getNum (dGet el "y") (h / 2))) 2) h)
            (jitter (g (k + 2))
              (txf (getNum (dGet el "x2") (getNum (dGet el "x") (w / 2) + 10))) 2)
            (clampY (jitter (g (k + 3))
              (tyf (getNum (dGet el "y2") (getNum (dGet el "y") (h / 2)))) 2) h)
            3) stroke sw op], k + 6) ∧
        CONTENT_TOP_MARGIN ≤
          clampY (jitter (g (k + 1)) (tyf (getNum (dGet el "y") (h / 2))) 2) h ∧
        clampY (jitter (g (k + 1)) (tyf (getNum (dGet el "y") (h / 2))) 2) h ≤
          h - LEGEND_RESERVED_HEIGHT - 20 ∧
        CONTENT_TOP_MARGIN ≤ clampY (jitter (g (k + 3))
          (tyf (getNum (dGet el "y2") (getNum (dGet el "y") (h / 2)))) 2) h ∧
        clampY (jitter (g (k + 3))
          (tyf (getNum (dGet el "y2") (getNum (dGet el "y") (h / 2)))) 2) h ≤
          h - LEGEND_RESERVED_HEIGHT - 20 ∧
        |jitter (g k) (txf (getNum (dGet el "x") (w / 2))) 2 -
          txf (getNum (dGet el "x") (w / 2))| ≤ 2 ∧
        |jitter (g (k + 2)) (txf (getNum (dGet el "x2") (getNum (dGet el "x") (w / 2) + 10))) 2 -
          txf (getNum (dGet el "x2") (getNum (dGet el "x") (w / 2) + 10))| ≤ 2) ∧
      (∀ (pts : List PyVal) (k2 : Nat) (q : ℚ × ℚ), q ∈ (polyFold g h txf tyf pts k2).1 →
        (CONTENT_TOP_MARGIN ≤ q.2 ∧ q.2 ≤ h - LEGEND_RESERVED_HEIGHT - 20) ∧
        ∃ c, |q.1 - txf c| ≤ 9/5) ∧
      ((∃ pts, dGet el "points" = PyVal.list pts ∧
          renderPolygon g h txf tyf el fill stroke sw op k =
            ([Svg.polygon (polyFold g h txf tyf pts k).1 fill stroke sw op],
              (polyFold g h txf tyf pts k).2)) ∨
        (renderPolygon g h txf tyf el fill stroke sw op k).1 = []) ∧
      (∀ (content : String) (hasTitle : Bool),
        pyEscape (dGet el "text") = Except.ok content →
        pyInTitle (dGet el "style") = Except.ok hasTitle →
        renderTextEl g w h txf tyf el op k =
          Except.ok ([Svg.text (jitter (g k) (txf (getNum (dGet el "x") (w / 2))) (6/5))
            (clampY (jitter (g (k + 1)) (tyf (getNum (dGet el "y") (h / 2))) (6/5)) h)
            (dGetD el "textAnchor" (PyVal.str (if hasTitle then "middle" else "start")))
            (getNum (if pyTruthy (dGet el "font_size") then dGet el "font_size"
              else dGet el "fontSize") 14)
            (dGetD el "color" (dGetD el "fill" (PyVal.str "#333333"))) op content], k + 2) ∧
        CONTENT_TOP_MARGIN ≤
          clampY (jitter (g (k + 1)) (tyf (getNum (dGet el "y") (h / 2))) (6/5)) h ∧
        clampY (jitter (g (k + 1)) (tyf (getNum (dGet el "y") (h / 2))) (6/5)) h ≤
          h - LEGEND_RESERVED_HEIGHT - 20 ∧
        |jitter (g k) (txf (getNum (dGet el "x") (w / 2))) (6/5) -
          txf (getNum (dGet el "x") (w / 2))| ≤ 6/5) := by
  intro g w h txf tyf el fill stroke sw op k hg hh
  refine ⟨fun y => clampY_band y h hh, ?_, ?_, polyFold_mem g h txf tyf hg hh, ?_, ?_⟩
  · exact ⟨rfl, (clampY_band _ h hh).1, (clampY_band _ h hh).2,
      jitter_close _ _ _ (hg k).1 (hg k).2 (by norm_num)⟩
  · exact ⟨rfl, (clampY_band _ h hh).1, (clampY_band _ h hh).2,
      (clampY_band _ h hh).1, (clampY_band _ h hh).2,
      jitter_close _ _ _ (hg k).1 (hg k).2 (by norm_num),
      jitter_close _ _ _ (hg (k + 2)).1 (hg (k + 2)).2 (by norm_num)⟩
  · cases hdp : dGet el "points" with
    | list pts =>
      by_cases he : pts.isEmpty
      · right; simp [renderPolygon, hdp, he]
      · by_cases h2 : (polyFold g h txf tyf pts k).1.isEmpty
        · right; simp [renderPolygon, hdp, he, h2]
        · left
          refine ⟨pts, rfl, ?_⟩
          simp [renderPolygon, hdp, he, h2]
    | none => right; simp [renderPolygon, hdp]
    | bool b => right; simp [renderPolygon, hdp]
    | num n => right; simp [renderPolygon, hdp]
    | str s => right; simp [renderPolygon, hdp]
    | dict d => right; simp [renderPolygon, hdp]
  · intro content hasTitle hesc htitle
    refine ⟨?_, (clampY_band _ h hh).1, (clampY_band _ h hh).2,
      jitter_close _ _ _ (hg k).1 (hg k).2 (by norm_num)⟩
    simp only [renderTextEl, hesc, eb_ok, htitle]

/-- C10 witness: the band property at the all-zero oracle on the default
canvas; y = 0 clamps to a value inside the band. -/
theorem C10_y_clamp_band_witness :
    CONTENT_TOP_MARGIN ≤ clampY 0 800 ∧
    clampY 0 800 ≤ 800 - LEGEND_RESERVED_HEIGHT - 20 :=
  (C10_y_clamp_band gZero 1200 800 (fun x => x) (fun y => y) (PyVal.dict [])
    PyVal.none PyVal.none 1 1 0 (fun n => by norm_num [gZero])
    (by norm_num [CONTENT_TOP_MARGIN, LEGEND_RESERVED_HEIGHT])).1 0

end VSpec
